import Mathlib

/-!
# Verification of the qualia-gtk-theme configuration / settings state machine

Shallow embedding of the configuration-reconciliation core of `install.py`:

* `Config.read`  (lines 645-712)  — tolerant line parser of the config file
* `Config.write` (lines 714-752)  — serialization of the config record
* `Config.theme_variants` (754-778) and the corrupt-record check of `main`
  (186-194, 215) — light/dark/auto resolution
* the per-component rebuild ("staleness") conditions of the `Install*`
  classes (878, 925-926, 975, 1003, 1033)
* `Enable.enable_theme` (1206-1278) — the settings-enablement engine, with
  its snapshot ("old value") capture logic and its gsettings/xfconf stores.

Python dicts are modelled as insertion-ordered association lists, machine
strings as `String`, absent dict keys as `Option`, and code paths that raise
an uncaught exception as `Except.error`.
-/

instance {ε α : Type} [DecidableEq ε] [DecidableEq α] :
    DecidableEq (Except ε α) := fun a b =>
  match a, b with
  | .ok x, .ok y =>
      if h : x = y then isTrue (by rw [h]) else isFalse (by simp [h])
  | .error x, .error y =>
      if h : x = y then isTrue (by rw [h]) else isFalse (by simp [h])
  | .ok _, .error _ => isFalse (by simp)
  | .error _, .ok _ => isFalse (by simp)

/-- A Python value that is either a string or a list of strings: in
`Config.read`, a value containing a space is split into a list. -/
inductive PyStrList where
  | str (s : String)
  | list (l : List String)
deriving DecidableEq, Repr

/-- `len(value)` for a string-or-list value. -/
def PyStrList.pyLen : PyStrList → Nat
  | .str s => s.length
  | .list l => l.length

/-- `config['enableable']` as seen by `Config.read`.  Normally it is the
dict computed by `get_enableable` (modelled by its key list); but the
branch at line 705 (`config[key] = value` for `key in VARIANTS`) can
overwrite it with a plain string, after which Python's `in` test on it
becomes a substring test. -/
inductive Enableable where
  | dict (keys : List String)
  | str (s : String)
deriving DecidableEq, Repr

/-- Split a character list on the two-character separator `": "`, keeping
empty pieces, as Python `str.split(': ')` does. -/
def splitColonSpace : List Char → List Char → List (List Char)
  | [], acc => [acc.reverse]
  | [c], acc => [(c :: acc).reverse]
  | c1 :: c2 :: rest, acc =>
      if c1 = ':' && c2 = ' ' then acc.reverse :: splitColonSpace rest []
      else splitColonSpace (c2 :: rest) (c1 :: acc)

/-- Split a character list on a single-character separator, keeping empty
pieces, as Python `str.split(c)` does. -/
def splitChar (c : Char) : List Char → List Char → List (List Char)
  | [], acc => [acc.reverse]
  | d :: rest, acc =>
      if d = c then acc.reverse :: splitChar c rest []
      else splitChar c rest (d :: acc)

/-- Python `line.split(': ')`. -/
def pySplitColonSpace (s : String) : List String :=
  (splitColonSpace s.data []).map List.asString

/-- Python `value.split(' ')` / `key.split('_')`. -/
def pySplitChar (c : Char) (s : String) : List String :=
  (splitChar c s.data []).map List.asString

/-- Python `line.strip()`: remove leading and trailing whitespace. -/
def pyStrip (s : String) : String :=
  (((s.data.dropWhile Char.isWhitespace).reverse.dropWhile
      Char.isWhitespace).reverse).asString

/-- Python `s.startswith(p)`. -/
def pyStartsWith (s p : String) : Bool := p.data.isPrefixOf s.data

/-- Python `s.endswith(p)`. -/
def pyEndsWith (s p : String) : Bool := p.data.isSuffixOf s.data

/-- Python `c in s` for a single character. -/
def pyContainsChar (s : String) (c : Char) : Bool := s.data.contains c

/-- Python `int(s)` for a decimal literal with an optional sign; `none`
models a `ValueError`. -/
def pyInt (s : String) : Option Int :=
  let digits (l : List Char) : Option Nat :=
    if l.isEmpty then none
    else l.foldl
      (fun acc c => match acc with
        | none => none
        | some n => if c.isDigit then some (n * 10 + (c.toNat - '0'.toNat)) else none)
      (some 0)
  match s.data with
  | '-' :: rest => (digits rest).map (fun n => -(n : Int))
  | '+' :: rest => (digits rest).map (fun n => (n : Int))
  | l => (digits l).map (fun n => (n : Int))

/-- Occurrence of `needle` as a contiguous sublist of `hay`. -/
def listInfixB (needle : List Char) : List Char → Bool
  | [] => needle.isEmpty
  | c :: t => needle.isPrefixOf (c :: t) || listInfixB needle t

/-- Python `needle in hay` for strings (substring test; the empty string is
a substring of everything). -/
def substrB (needle hay : String) : Bool :=
  needle = "" || listInfixB needle.data hay.data

/-- Python `x in config['enableable']`: key membership for the dict,
substring test if the field was clobbered with a string. -/
def Enableable.mem (e : Enableable) (x : String) : Bool :=
  match e with
  | .dict keys => keys.contains x
  | .str s => substrB x s

/-- Python `b in l` for a boolean `b` and a list of strings `l`: membership
is by `==`, and a Python bool is never equal to a string, so this is
always false. -/
def boolInStrList (_b : Bool) (_l : List String) : Bool := false

/-- The accent colors of `VARIANTS['color']` (keys, in order). -/
def variantColors : List String :=
  ["orange", "bark", "sage", "olive", "viridian", "prussiangreen",
   "lightblue", "blue", "purple", "magenta", "pink", "red"]

/-- The theme variants of `VARIANTS['theme']` (keys). -/
def variantThemes : List String := ["light", "dark", "auto"]

/-- The top-level groups of `VARIANTS['enableable']` (keys, in order). -/
def variantGroups : List String :=
  ["dg-adw-gtk3", "dg-libadwaita", "dg-yaru", "dg-firefox-theme",
   "dg-vscode-adwaita", "qualia-gtk-theme-snap"]

/-- The keys of the `VERSIONS` dict (supported desktop environments). -/
def versionsKeys : List String :=
  ["gnome", "cinnamon", "unity", "xfce", "mate", "budgie"]

/-- The slice of the `config` dict that `Config.read` reads and writes.
`none` in an `Option` field models an absent dict key. -/
structure ReadConfig where
  color : Option String
  theme : Option String
  enabled : Option (List String)
  old_firefox : List String
  old_vscode : List String
  /-- `config['old']`: theme -> desktop -> pre-install value (the parsed
  value, which may be a list when it contained a space). -/
  old : List (String × List (String × PyStrList))
  /-- `config['old_gnome']`: outer `none` = key absent; inner `none` =
  `int(value)` raised `ValueError` and `None` was stored. -/
  old_gnome : Option (Option Int)
  /-- the `*_version` keys (and any other key ending in `version` that was
  accepted at line 707). -/
  versions : List (String × String)
  enableable : Enableable
deriving DecidableEq, Repr

/-- The uncaught exceptions `Config.read` can raise. -/
inductive ReadErr where
  /-- line 674: `config['enabled'].append(key)` with no `enabled` key yet. -/
  | keyErrorEnabled
  /-- line 693-694: `key.split('_')[1]` / `[2]` out of range for a key
  starting with `old`. -/
  | indexErrorOldKey
  /-- line 700: `int(value)` on a list value raises `TypeError`, which the
  surrounding `except ValueError` does not catch. -/
  | typeErrorGnome
deriving DecidableEq, Repr

/-- Replace the value of the first entry with key `k` (if any) in an
association list. -/
def assocReplace (l : List (String × α)) (k : String) (v : α) : List (String × α) :=
  l.map (fun p => if p.1 = k then (p.1, v) else p)

/-- Set key `k` to `v`: replace if present (keeping dict order), else
append (Python dict assignment). -/
def assocSet (l : List (String × α)) (k : String) (v : α) : List (String × α) :=
  if (l.lookup k).isSome then assocReplace l k v else l ++ [(k, v)]

/-- Line 673: legacy `firefox` flag — `config['enabled'].append('firefox')`;
raises `KeyError` when the `enabled` key does not exist. -/
def readFirefoxLegacy (rc : ReadConfig) (key : String) (value : PyStrList) :
    Except ReadErr ReadConfig :=
  if key = "firefox" && value.pyLen > 0 then
    match rc.enabled with
    | none => .error .keyErrorEnabled
    | some e => .ok { rc with enabled := some (e ++ [key]) }
  else .ok rc

/-- Lines 676-689: the `enabled` / `firefox` / `vscode` list block.  In the
list branch the source computes the boolean
`theme in config['enableable'] or key != 'enabled'` and then tests that
*boolean* for membership in a list of strings — which is always false, so
the guard always passes and every listed name is appended.  In the string
branch the boolean is used as intended. -/
def readEnabledBlock (rc : ReadConfig) (key : String) (value : PyStrList) :
    ReadConfig :=
  let pfx := if key = "firefox" || key = "vscode" then "old_" else ""
  let newList : List String :=
    match value with
    | .list vs =>
        vs.foldl
          (fun acc theme0 =>
            let theme := if pyStartsWith theme0 "firefox" then "firefox" else theme0
            let b := rc.enableable.mem theme || key ≠ "enabled"
            -- Python: `b not in acc` where `acc` is a list of strings; a
            -- bool never equals a string, so this is always true.
            if !boolInStrList b acc then acc ++ [theme] else acc)
          []
    | .str v0 =>
        let v := if pyStartsWith v0 "firefox" then "firefox" else v0
        if (rc.enableable.mem v || (pfx ++ key) ≠ "enabled") && !([] : List String).contains v
        then [v] else []
  if key = "enabled" then { rc with enabled := some newList }
  else if key = "firefox" then { rc with old_firefox := newList }
  else { rc with old_vscode := newList }

/-- Lines 691-697: an `old_<theme>_<desktop>` snapshot line.  Note that
`config['old'][theme] = {}` runs unconditionally, so an earlier snapshot of
the same theme for another desktop is discarded. -/
def readOldBlock (rc : ReadConfig) (key : String) (value : PyStrList) :
    Except ReadErr ReadConfig :=
  let parts := pySplitChar '_' key
  match parts[1]?, parts[2]? with
  | some theme, some desktop =>
      if versionsKeys.contains desktop then
        .ok { rc with old := assocSet rc.old theme [(desktop, value)] }
      else .ok rc
  | _, _ => .error .indexErrorOldKey

/-- Lines 698-702: a bare `gnome: N` line; `int` on a list raises an
uncaught `TypeError`. -/
def readGnomeBlock (rc : ReadConfig) (value : PyStrList) :
    Except ReadErr ReadConfig :=
  match value with
  | .str v =>
      match pyInt v with
      | some n => .ok { rc with old_gnome := some (some n) }
      | none => .ok { rc with old_gnome := some none }
  | .list _ => .error .typeErrorGnome

/-- Lines 703-710: a plain string value; recognized `VARIANTS` keys
(`color`, `theme`, `enableable`) are stored when the value is recognized,
otherwise keys ending in `version` with a 40-character value are stored. -/
def readStrBlock (rc : ReadConfig) (key : String) (v : String) : ReadConfig :=
  let recognized :=
    (key = "color" && variantColors.contains v) ||
    (key = "theme" && variantThemes.contains v) ||
    (key = "enableable" && variantGroups.contains v)
  if recognized then
    if key = "color" then { rc with color := some v }
    else if key = "theme" then { rc with theme := some v }
    else { rc with enableable := .str v }
  else if pyEndsWith key "version" && v.length = 40 then
    { rc with versions := assocSet rc.versions key v }
  else rc

/-- One iteration of the line loop of `Config.read` (lines 657-710), for a
line already stripped of its trailing newline.  `configured` is the module
global, always `false` at the only call site of `read`. -/
def Config.readLine (configured : Bool) (rc : ReadConfig) (line : String) :
    Except ReadErr ReadConfig :=
  if (pySplitColonSpace line).length ≤ 1 then .ok rc
  else
    let parts := pySplitColonSpace (pyStrip line)
    let key := parts.headD ""
    match parts[1]? with
    | none => .ok rc
    | some rawValue =>
      let value : PyStrList :=
        if pyContainsChar rawValue ' ' then .list (pySplitChar ' ' rawValue)
        else .str rawValue
      do
        let rc ← readFirefoxLegacy rc key value
        if !configured && (key = "enabled" || key = "firefox" || key = "vscode") then
          .ok (readEnabledBlock rc key value)
        else if pyStartsWith key "old" then
          readOldBlock rc key value
        else if key = "gnome" then
          readGnomeBlock rc value
        else
          match value with
          | .str v =>
              .ok (if !configured then readStrBlock rc key v
                   else if pyEndsWith key "version" && v.length = 40 then
                     { rc with versions := assocSet rc.versions key v }
                   else rc)
          | .list _ => .ok rc

/-- The line loop of `Config.read`. -/
def Config.readLines (configured : Bool) (rc : ReadConfig) :
    List String → Except ReadErr ReadConfig
  | [] => .ok rc
  | line :: rest => do
      let rc' ← Config.readLine configured rc line
      Config.readLines configured rc' rest

/-- The initial `config` slice at the top of `Config.read` (lines 647-654):
`old`, `old_vscode`, `old_firefox` reset, a `''` version token for every
group except the snap. -/
def ReadConfig.init (enableable : Enableable) : ReadConfig :=
  { color := none, theme := none, enabled := none,
    old_firefox := [], old_vscode := [], old := [], old_gnome := none,
    versions :=
      [("dg-adw-gtk3_version", ""), ("dg-libadwaita_version", ""),
       ("dg-yaru_version", ""), ("dg-firefox-theme_version", ""),
       ("dg-vscode-adwaita_version", "")],
    enableable := enableable }

/-- `Config.read`: a missing file (`none`) is caught by the
`except FileNotFoundError` and treated as no prior record. -/
def Config.read (configured : Bool) (enableable : Enableable)
    (file : Option (List String)) : Except ReadErr ReadConfig :=
  match file with
  | none => .ok (ReadConfig.init enableable)
  | some lines => Config.readLines configured (ReadConfig.init enableable) lines

/-! ## `Config.write` (lines 714-752) -/

/-- The in-memory config record as `Config.write` consumes it: the fields
the writer accesses, with Python dicts as insertion-ordered association
lists.  `gnomeVersion` is `config['desktop_versions']['gnome']`. -/
structure Cfg where
  color : String
  theme : String
  enabled : List String
  firefox : List String
  vscode : List String
  gnomeVersion : Option Int
  versions : List (String × String)
  /-- `config['old']`: theme -> desktop -> snapshot value. -/
  old : List (String × List (String × String))
deriving DecidableEq, Repr

/-- Python `' '.join l`. -/
def joinSpace (l : List String) : String := String.intercalate " " l

/-- Python `str` of the optional gnome version (`str(None) = "None"`). -/
def pyStrOptInt : Option Int → String
  | none => "None"
  | some n => toString n

/-- Lines 737-743: one `<group>_version: <token>` line per group of
`VARIANTS['enableable']` whose key is present (`except KeyError: pass`). -/
def versionLines (vs : List (String × String)) : List String :=
  variantGroups.filterMap
    (fun g => (vs.lookup (g ++ "_version")).map (fun v => g ++ "_version: " ++ v))

/-- Lines 747-750: snapshot lines for one theme; empty and self-authored
(`qualia`-prefixed) values are not written. -/
def oldEntryLines (t : String) (m : List (String × String)) : List String :=
  m.filterMap
    (fun p =>
      if p.2 ≠ "" && !(pyStartsWith p.2 "qualia")
      then some ("old_" ++ t ++ "_" ++ p.1 ++ ": " ++ p.2) else none)

/-- Lines 747-750: all snapshot lines. -/
def oldLines (o : List (String × List (String × String))) : List String :=
  o.foldr (fun e acc => oldEntryLines e.1 e.2 ++ acc) []

/-- The exact sequence of lines `Config.write` emits (each `f.write` adds a
trailing newline; lines are modelled without it). -/
def serializeCfg (c : Cfg) : List String :=
  ["This file is generated and used by the install script.",
   "color: " ++ c.color,
   "theme: " ++ c.theme,
   "enabled: " ++ joinSpace c.enabled,
   "",
   "gnome: " ++ pyStrOptInt c.gnomeVersion,
   "firefox: " ++ joinSpace c.firefox,
   "vscode: " ++ joinSpace c.vscode,
   ""]
  ++ versionLines c.versions ++ [""] ++ oldLines c.old

/-- What the filesystem holds at `CONFIG_FILE` before a write. -/
inductive PathState where
  | absent
  | file (lines : List String)
  | dir
deriving DecidableEq, Repr

/-- Result of `Config.write`: the new path state, and whether the
`shutil.rmtree` branch ran (the path was a directory and was removed). -/
structure WriteResult where
  state : PathState
  removedDir : Bool
deriving DecidableEq, Repr

/-- `Config.write` (lines 721-752): `os.remove` an existing regular file,
`shutil.rmtree` an existing directory — silently — then create the file
exclusively and write all sections. -/
def Config.write (ps : PathState) (c : Cfg) : WriteResult :=
  match ps with
  | .file _ => { state := .file (serializeCfg c), removedDir := false }
  | .dir => { state := .file (serializeCfg c), removedDir := true }
  | .absent => { state := .file (serializeCfg c), removedDir := false }

/-! ## `Config.theme_variants` (754-778) and the corrupt-record check of
`main` (186-194) -/

/-- `Config.theme_variants`: first component is the Python return value
(`True`/`False`), second is the value assigned to `config['color_scheme']`
(`none` = left unassigned).  `probe` is the output of
`gsettings get org.gnome.desktop.interface color-scheme` (`none` =
`FileNotFoundError`). -/
def Config.theme_variants (pref : String) (probe : Option String) :
    Bool × Option String :=
  if pref = "auto" then
    match probe with
    | some "prefer-dark" => (true, some "prefer-dark")
    | some "default" => (true, some "default")
    | _ => (false, none)
  else if pref = "light" then (true, some "default")
  else if pref = "dark" then (true, some "prefer-dark")
  else (true, none)

/-- The corrupt-record check of `main` (lines 186-194): whether a full
reconfiguration is forced.  A missing key raises `KeyError`, which is
caught and forces reconfiguration.  The values `Config.read` can store are
always of the right `isinstance` type, so those tests pass whenever the key
exists.  The test `color_scheme is None` compares the *boolean* returned by
`theme_variants` with `None` — always false. -/
def mainNeedsReconfigure (color : Option String) (theme : Option String)
    (enabled : Option (List String)) (probe : Option String) : Bool :=
  match theme with
  | none => true
  | some th =>
    let _ret := Config.theme_variants th probe
    match color, enabled with
    | some _, some en =>
        -- `color_scheme` here is `_ret.1`, a bool — `is None` is false even
        -- when `theme_variants` reported failure by returning `False`
        let colorSchemeIsNone := false
        colorSchemeIsNone || en.isEmpty
    | _, _ => true

/-- Line 215 of `main`: `config['suffix']` is computed from
`config['color_scheme']`; if `theme_variants` never assigned that key the
access raises `KeyError`. -/
def mainSuffix (colorScheme : Option String) : Except String String :=
  match colorScheme with
  | none => .error "KeyError: color_scheme"
  | some cs => .ok (if cs = "prefer-dark" then "-dark" else "")

/-! ## Per-component rebuild conditions (`Install*._install`) -/

/-- `InstallDgAdwGtk3._install` line 878: rebuild condition. -/
def InstallDgAdwGtk3.rebuild (current recorded : String)
    (configure_all force : Bool) : Bool :=
  current ≠ recorded || configure_all || force

/-- `InstallDgYaru._install` lines 925-926: rebuild condition; also
rebuilds when the recorded gnome version differs from the detected one. -/
def InstallDgYaru.rebuild (current recorded : String)
    (configure_all force : Bool) (old_gnome gnome : Option Int) : Bool :=
  current ≠ recorded || configure_all || force || old_gnome ≠ gnome

/-- `InstallDgLibadwaita._install` line 975: rebuild condition. -/
def InstallDgLibadwaita.rebuild (current recorded : String)
    (configure_all force update_color update_theme : Bool) : Bool :=
  current ≠ recorded || configure_all || force || update_color || update_theme

/-- Lines 998-1001 / 1028-1031: a browser/editor variant that is installed
now but was not recorded before. -/
def variantsChanged (current old : List String) : Bool :=
  current.any (fun v => !old.contains v)

/-- `InstallDgFirefoxTheme._install` line 1003: rebuild condition. -/
def InstallDgFirefoxTheme.rebuild (current recorded : String)
    (configure_all force update_color update_settings : Bool)
    (firefox old_firefox : List String) : Bool :=
  current ≠ recorded || configure_all || force || update_color ||
    update_settings || variantsChanged firefox old_firefox

/-- `InstallDgVscodeAdwaita._install` line 1033: rebuild condition. -/
def InstallDgVscodeAdwaita.rebuild (current recorded : String)
    (configure_all force update_syntax : Bool)
    (vscode old_vscode : List String) : Bool :=
  current ≠ recorded || configure_all || force || update_syntax ||
    variantsChanged vscode old_vscode

/-! ## The Enablement Engine: `Enable` (lines 1081-1278)

The settings stores are modelled as association lists from
(schema, key) — resp. (channel, property) — to the stored string; a
location never written reads as `""`.  State mutations thread through
`EngineState`; a Python exception that would kill the process is an
`Except.error`. -/

/-- `config['desktop_versions']`. -/
structure DesktopVersions where
  gnome : Option Int
  cinnamon : Option Int
  unity : Option Int
  mate : Option Int
  budgie : Option Int
  xfce : Option Int
deriving DecidableEq, Repr

/-- `config['desktop_versions'][de]`. -/
def DesktopVersions.get (dv : DesktopVersions) : String → Option Int
  | "gnome" => dv.gnome
  | "cinnamon" => dv.cinnamon
  | "unity" => dv.unity
  | "mate" => dv.mate
  | "budgie" => dv.budgie
  | "xfce" => dv.xfce
  | _ => none

/-- Host facts probed by `enable_theme`: availability of the two store
binaries, of `gnome-extensions`, and whether the user-theme shell
extension is listed (lines 1222-1234, 1245, 1262). -/
structure Env where
  gsettings : Bool
  xfconf : Bool
  gnomeExtensions : Bool
  userThemeExtension : Bool
deriving DecidableEq, Repr

/-- One entry of the `data` dict built by `Enable._data`. -/
structure ThemeData where
  schemas : List (String × String)
  key : Option String
  property : Option String
  channel : Option String
  theme_name : Option String
deriving DecidableEq, Repr

/-- The `schemas` dict of `_data` (lines 1103-1109), in insertion order. -/
def interfaceSchemas : List (String × String) :=
  [("gnome", "org.gnome.desktop.interface"),
   ("cinnamon", "org.cinnamon.desktop.interface"),
   ("unity", "org.gnome.desktop.interface"),
   ("mate", "org.mate.interface"),
   ("budgie", "org.gnome.desktop.interface")]

/-- `cursor_scemas` (lines 1111-1112): a copy with the mate entry
replaced in place. -/
def cursorSchemas : List (String × String) :=
  [("gnome", "org.gnome.desktop.interface"),
   ("cinnamon", "org.cinnamon.desktop.interface"),
   ("unity", "org.gnome.desktop.interface"),
   ("mate", "org.mate.peripherals-mouse"),
   ("budgie", "org.gnome.desktop.interface")]

/-- `sound_schemas` (lines 1114-1120). -/
def soundSchemas : List (String × String) :=
  [("gnome", "org.gnome.desktop.sound"),
   ("cinnamon", "org.cinnamon.desktop.sound"),
   ("unity", "org.gnome.desktop.sound"),
   ("mate", "org.mate.sound"),
   ("budgie", "org.gnome.desktop.sound")]

/-- One `try: data[t] = {...} except KeyError: pass` block of
`Enable._data`: the entry exists exactly when the theme's name was passed
as a keyword argument. -/
def dataBlock (o : Option String) (t : String) (mk : String → ThemeData) :
    List (String × ThemeData) :=
  match o with
  | some n => [(t, mk n)]
  | none => []

/-- `Enable._data` (lines 1102-1204): an entry is built for a theme
exactly when its name was passed as a keyword argument (otherwise the
`self.names[...]` access raises `KeyError`, which is caught and the entry
skipped).  `names` maps a theme to its keyword-argument value. -/
def Enable.data (names : String → Option String) : List (String × ThemeData) :=
  dataBlock (names "gtk3") "gtk3" (fun n =>
    { schemas := interfaceSchemas, key := some "gtk-theme",
      property := some "/Net/ThemeName", channel := some "xsettings",
      theme_name := some n }) ++
  dataBlock (names "icons") "icons" (fun n =>
    { schemas := interfaceSchemas, key := some "icon-theme",
      property := some "/Net/IconThemeName", channel := some "xsettings",
      theme_name := some n }) ++
  dataBlock (names "cursors") "cursors" (fun n =>
    { schemas := cursorSchemas, key := some "cursor-theme",
      property := some "/Gtk/CursorThemeName", channel := some "xsettings",
      theme_name := some n }) ++
  dataBlock (names "sounds") "sounds" (fun n =>
    { schemas := soundSchemas, key := some "theme-name",
      property := some "/Net/SoundThemeName", channel := some "xsettings",
      theme_name := some n }) ++
  dataBlock (names "gnome-shell") "gnome-shell" (fun n =>
    { schemas := [("gnome", "org.gnome.shell.extensions.user-theme")],
      key := some "name", property := none, channel := none,
      theme_name := some n }) ++
  dataBlock (names "cinnamon-shell") "cinnamon-shell" (fun n =>
    { schemas := [("cinnamon", "org.cinnamon.theme")], key := some "name",
      property := none, channel := none, theme_name := some n }) ++
  dataBlock (names "metacity") "metacity" (fun n =>
    { schemas := [("mate", "org.mate.Marco.general")], key := some "theme",
      property := none, channel := none, theme_name := some n }) ++
  dataBlock (names "xfwm4") "xfwm4" (fun n =>
    { schemas := [], key := none, property := some "/general/theme",
      channel := some "xfwm4", theme_name := some n })

/-- The keyword arguments `main` passes to `Enable` (lines 360-369). -/
def mainKwargs (theme_name icon_name cursor_name xfwm4_name : String) :
    String → Option String
  | "gtk3" => some theme_name
  | "icons" => some icon_name
  | "cursors" => some cursor_name
  | "sounds" => some cursor_name
  | "gnome-shell" => some theme_name
  | "cinnamon-shell" => some theme_name
  | "metacity" => some xfwm4_name
  | "xfwm4" => some xfwm4_name
  | _ => none

/-- A settings store: (schema, key) resp. (channel, property) to value. -/
abbrev StoreMap := List ((String × String) × String)

/-- Read a store location (the most recent write, else the initial list,
else `""` for a location the model never populated). -/
def storeGet (st : StoreMap) (k : String × String) : String :=
  (st.lookup k).getD ""

/-- Write a store location. -/
def storeSet (st : StoreMap) (k : String × String) (v : String) : StoreMap :=
  (k, v) :: st

/-- The mutable state threaded through `enable_theme`: the two stores, the
snapshot map `config['old']`, the `set` commands issued on each store, and
the module global `updated` (which `Enable` never assigns — only the
`Install*` build actions do, via `InstallThread.updated`). -/
structure EngineState where
  gs : StoreMap
  xf : StoreMap
  old : List (String × List (String × String))
  gsWrites : List ((String × String) × String)
  xfWrites : List ((String × String) × String)
  updated : Bool
deriving DecidableEq, Repr

/-- Replace the snapshot of `(t, de)`, which must already exist, keeping
dict order. -/
def oldUpdate (o : List (String × List (String × String))) (t de live : String) :
    List (String × List (String × String)) :=
  o.map (fun e =>
    if e.1 = t then
      (e.1, e.2.map (fun p => if p.1 = de then (p.1, live) else p))
    else e)

/-- Snapshot capture (lines 1249-1253 for gsettings, 1267-1271 for xfconf):
if the theme has no `old` entry at all, create `{de: live}`; else if this
desktop's stored snapshot starts with `qualia`, refresh it; else leave the
map unchanged.  Note a `(t, de)` pair with no snapshot is *not* captured
when `t` already has a snapshot for another desktop. -/
def captureOld (o : List (String × List (String × String)))
    (t de live : String) : List (String × List (String × String)) :=
  match o.lookup t with
  | none => o ++ [(t, [(de, live)])]
  | some m =>
      match m.lookup de with
      | some v => if pyStartsWith v "qualia" then oldUpdate o t de live else o
      | none => o

/-- `config['old'][t][de]` as an optional value. -/
def lookupOld2 (o : List (String × List (String × String))) (t de : String) :
    Option String :=
  (o.lookup t).bind (fun m => m.lookup de)

/-- One (theme, desktop) store interaction of `enable_theme`, after all
applicability checks: read the live value, capture the snapshot, and if
the live value differs from the desired name write it and log the write
(lines 1248-1256 / 1266-1274). -/
structure SettingPair where
  isXf : Bool
  loc : String × String
  theme : String
  de : String
  name : String
deriving DecidableEq, Repr

/-- Execute one capture-and-apply step. -/
def pairStep (s : EngineState) (p : SettingPair) : EngineState :=
  if p.isXf then
    let live := storeGet s.xf p.loc
    let old' := captureOld s.old p.theme p.de live
    if live ≠ p.name then
      { s with old := old', xf := storeSet s.xf p.loc p.name,
               xfWrites := s.xfWrites ++ [(p.loc, p.name)] }
    else { s with old := old' }
  else
    let live := storeGet s.gs p.loc
    let old' := captureOld s.old p.theme p.de live
    if live ≠ p.name then
      { s with old := old', gs := storeSet s.gs p.loc p.name,
               gsWrites := s.gsWrites ++ [(p.loc, p.name)] }
    else { s with old := old' }

/-- Fatal exceptions inside `enable_theme`. -/
inductive EngineErr where
  /-- `data['gtk3']['theme_name']` unavailable for the unity icon
  substitution, or a `None` key/channel/name passed to a store command. -/
  | keyError (what : String)
deriving DecidableEq, Repr

/-- The desktop loop of `enable_theme` (lines 1236-1259).  `gtk3NameO` is
`data['gtk3']['theme_name']` as a lazy lookup: outer `none` = `'gtk3'` not
in `data` (`KeyError` when the unity icon substitution runs), inner `none`
= the name is Python `None` (the later `gsettings set` call then dies).
When `gsettings` is missing the loop prints and `break`s (the xfconf part
still runs). -/
def Enable.gsLoop (desktop : String) (uninstalling : Bool)
    (dv : DesktopVersions) (env : Env) (gtk3NameO : Option (Option String))
    (t : String) (td : ThemeData) (n : String) (s : EngineState) :
    List (String × String) → Except EngineErr EngineState
  | [] => .ok s
  | (de, schema) :: rest =>
      if desktop ≠ "all" && desktop ≠ de then
        Enable.gsLoop desktop uninstalling dv env gtk3NameO t td n s rest
      else
        -- lines 1239-1243: unity icon substitution
        let nameO : Option (Option String) :=
          if t = "icons" && de = "unity" && !uninstalling then gtk3NameO
          else some (some n)
        match nameO with
        | none => .error (.keyError "gtk3")
        | some name? =>
          if env.gsettings then
            if (dv.get de).isSome then
              match td.key, name? with
              | some k, some name =>
                  Enable.gsLoop desktop uninstalling dv env gtk3NameO t td n
                    (pairStep s { isXf := false, loc := (schema, k), theme := t,
                                  de := de, name := name }) rest
              | none, _ => .error (.keyError "key")
              | some _, none => .error (.keyError "theme_name")
            else
              Enable.gsLoop desktop uninstalling dv env gtk3NameO t td n s rest
          else .ok s

/-- The xfconf part of `enable_theme` (lines 1261-1276): runs for every
theme with a non-`None` property when xfce is detected and `xfconf-query`
exists — it is not restricted by the `desktop` argument. -/
def Enable.xfPart (dv : DesktopVersions) (env : Env) (t : String)
    (td : ThemeData) (n : String) (s : EngineState) :
    Except EngineErr EngineState :=
  match td.property with
  | none => .ok s
  | some prop =>
      if env.xfconf then
        if (dv.get "xfce").isSome then
          match td.channel with
          | none => .error (.keyError "channel")
          | some ch =>
              .ok (pairStep s { isXf := true, loc := (ch, prop), theme := t,
                                de := "xfce", name := n })
        else .ok s
      else .ok s

/-- One iteration of the theme loop of `enable_theme` (lines 1216-1276):
skip when the theme is not enabled (unless uninstalling) or its name is
`None`; the `gnome-shell` theme additionally requires `gnome-extensions`
and the user-theme extension (lines 1221-1234), else the whole theme is
skipped. -/
def Enable.processTheme (desktop : String) (uninstalling : Bool)
    (dv : DesktopVersions) (env : Env) (gtk3NameO : Option (Option String))
    (enabled : List String) (s : EngineState) (e : String × ThemeData) :
    Except EngineErr EngineState :=
  if enabled.contains e.1 || uninstalling then
    match e.2.theme_name with
    | none => .ok s
    | some n =>
      if e.1 = "gnome-shell" && !(env.gnomeExtensions && env.userThemeExtension)
      then .ok s
      else do
        let s1 ← Enable.gsLoop desktop uninstalling dv env gtk3NameO e.1 e.2 n s
          e.2.schemas
        Enable.xfPart dv env e.1 e.2 n s1
  else .ok s

/-- The theme loop of `enable_theme`. -/
def Enable.processThemes (desktop : String) (uninstalling : Bool)
    (dv : DesktopVersions) (env : Env) (gtk3NameO : Option (Option String))
    (enabled : List String) (s : EngineState) :
    List (String × ThemeData) → Except EngineErr EngineState
  | [] => .ok s
  | e :: rest => do
      let s' ← Enable.processTheme desktop uninstalling dv env gtk3NameO enabled
        s e
      Enable.processThemes desktop uninstalling dv env gtk3NameO enabled s' rest

/-- `Enable.enable_theme` (lines 1206-1278).  `main` calls it with
`desktop = "all"` and `uninstalling = false`. -/
def Enable.enable_theme (data : List (String × ThemeData)) (desktop : String)
    (uninstalling : Bool) (enabled : List String) (dv : DesktopVersions)
    (env : Env) (s : EngineState) : Except EngineErr EngineState :=
  Enable.processThemes desktop uninstalling dv env
    ((data.lookup "gtk3").map ThemeData.theme_name) enabled s data

/-- The arguments of one `enable_theme` run. -/
structure EnableArgs where
  data : List (String × ThemeData)
  desktop : String
  uninstalling : Bool
  enabled : List String
  dv : DesktopVersions
  env : Env
deriving Repr

/-- A sequence of `enable_theme` runs, each starting from the state the
previous one left. -/
def Enable.runMany (s : EngineState) :
    List EnableArgs → Except EngineErr EngineState
  | [] => .ok s
  | a :: rest => do
      let s' ← Enable.enable_theme a.data a.desktop a.uninstalling a.enabled
        a.dv a.env s
      Enable.runMany s' rest

/-! ### Flattened form: the sequence of capture-and-apply steps a run
performs.  `procPairs` depends only on the run arguments, never on the
stores or the snapshot map, so two consecutive runs process the same
pairs. -/

/-- Whether one (desktop, schema) entry yields a gsettings pair, and which
(`g` is the gtk3 theme name used by the unity icon substitution). -/
def gsSel (desktop : String) (uninstalling : Bool) (dv : DesktopVersions)
    (g : String) (t : String) (td : ThemeData) (n : String)
    (p : String × String) : Option SettingPair :=
  if !(desktop ≠ "all" && desktop ≠ p.1) && (dv.get p.1).isSome then
    some { isXf := false, loc := (p.2, td.key.getD ""), theme := t,
           de := p.1,
           name := if t = "icons" && p.1 = "unity" && !uninstalling then g
                   else n }
  else none

/-- The pairs the desktop loop of one theme processes. -/
def gsPairsOf (desktop : String) (uninstalling : Bool) (dv : DesktopVersions)
    (env : Env) (g : String) (t : String) (td : ThemeData) (n : String) :
    List SettingPair :=
  if env.gsettings then
    td.schemas.filterMap (gsSel desktop uninstalling dv g t td n)
  else []

/-- The xfconf pair of one theme (empty when not applicable). -/
def xfPairsOf (dv : DesktopVersions) (env : Env) (t : String)
    (td : ThemeData) (n : String) : List SettingPair :=
  match td.property with
  | none => []
  | some prop =>
      if env.xfconf && (dv.get "xfce").isSome then
        [{ isXf := true, loc := (td.channel.getD "", prop), theme := t,
           de := "xfce", name := n }]
      else []

/-- All pairs one theme contributes. -/
def themePairs (desktop : String) (uninstalling : Bool)
    (dv : DesktopVersions) (env : Env) (g : String) (enabled : List String)
    (e : String × ThemeData) : List SettingPair :=
  if enabled.contains e.1 || uninstalling then
    match e.2.theme_name with
    | none => []
    | some n =>
      if e.1 = "gnome-shell" && !(env.gnomeExtensions && env.userThemeExtension)
      then []
      else gsPairsOf desktop uninstalling dv env g e.1 e.2 n ++
           xfPairsOf dv env e.1 e.2 n
  else []

/-- All pairs one run processes, in order. -/
def procPairs (data : List (String × ThemeData)) (desktop : String)
    (uninstalling : Bool) (enabled : List String) (dv : DesktopVersions)
    (env : Env) (g : String) : List SettingPair :=
  data.foldr (fun e acc => themePairs desktop uninstalling dv env g enabled e ++ acc) []

/-- Execute a list of capture-and-apply steps. -/
def execPairs (s : EngineState) : List SettingPair → EngineState
  | [] => s
  | p :: rest => execPairs (pairStep s p) rest

/-! ### Flattening: a run equals the execution of its pair list -/

theorem execPairs_append (s : EngineState) (l1 l2 : List SettingPair) :
    execPairs s (l1 ++ l2) = execPairs (execPairs s l1) l2 := by
  induction l1 generalizing s with
  | nil => rfl
  | cons p rest ih => simp [execPairs, ih]


theorem gsLoop_flatten_off (desktop : String) (uninstalling : Bool)
    (dv : DesktopVersions) (env : Env) (g : String)
    (gtk3NameO : Option (Option String)) (t : String) (td : ThemeData)
    (n : String) (hsub : gtk3NameO = some (some g))
    (henv : env.gsettings = false) :
    ∀ (l : List (String × String)) (s : EngineState),
      Enable.gsLoop desktop uninstalling dv env gtk3NameO t td n s l = .ok s := by
  subst hsub
  intro l
  induction l with
  | nil => intro s; rfl
  | cons hd tl ih =>
      intro s
      obtain ⟨de, schema⟩ := hd
      show Enable.gsLoop desktop uninstalling dv env (some (some g)) t td n s
        ((de, schema) :: tl) = .ok s
      unfold Enable.gsLoop
      by_cases hf : (decide (desktop ≠ "all") && decide (desktop ≠ de)) = true
      · rw [if_pos hf]
        exact ih s
      · rw [if_neg (by simp only [hf]; exact Bool.false_ne_true)]
        by_cases hc : (t = "icons" && de = "unity" && !uninstalling) = true
        · rw [if_pos hc, henv]
          rfl
        · rw [if_neg (by simp only [hc]; exact Bool.false_ne_true)]
          rw [henv]
          rfl

theorem gsLoop_flatten_on (desktop : String) (uninstalling : Bool)
    (dv : DesktopVersions) (env : Env) (g k : String)
    (gtk3NameO : Option (Option String)) (t : String) (td : ThemeData)
    (n : String) (hsub : gtk3NameO = some (some g))
    (hk : td.key = some k) (henv : env.gsettings = true) :
    ∀ (l : List (String × String)) (s : EngineState),
      Enable.gsLoop desktop uninstalling dv env gtk3NameO t td n s l =
        .ok (execPairs s (l.filterMap (gsSel desktop uninstalling dv g t td n))) := by
  subst hsub
  intro l
  induction l with
  | nil => intro s; rfl
  | cons hd tl ih =>
      intro s
      obtain ⟨de, schema⟩ := hd
      show Enable.gsLoop desktop uninstalling dv env (some (some g)) t td n s
        ((de, schema) :: tl) = _
      unfold Enable.gsLoop
      rw [List.filterMap_cons]
      by_cases hf : (decide (desktop ≠ "all") && decide (desktop ≠ de)) = true
      · have hsel : gsSel desktop uninstalling dv g t td n (de, schema) = none := by
          unfold gsSel
          rw [hf]
          rfl
        rw [if_pos hf, hsel]
        exact ih s
      · have hf' : (decide (desktop ≠ "all") && decide (desktop ≠ de)) = false :=
          Bool.not_eq_true _ ▸ (Bool.eq_false_iff.mpr hf)
        rw [if_neg hf]
        by_cases hdv : (dv.get de).isSome = true
        · have hsel : gsSel desktop uninstalling dv g t td n (de, schema) =
              some { isXf := false, loc := (schema, k), theme := t, de := de,
                     name := if t = "icons" && de = "unity" && !uninstalling
                             then g else n } := by
            unfold gsSel
            rw [hf', hdv, hk]
            rfl
          rw [hsel]
          by_cases hc : (t = "icons" && de = "unity" && !uninstalling) = true
          · rw [if_pos hc, henv]
            simp only [hdv, if_true, hk]
            rw [show (if (t = "icons" && de = "unity" && !uninstalling) = true
              then g else n) = g from if_pos hc]
            exact ih _
          · rw [if_neg hc, henv]
            simp only [hdv, if_true, hk]
            rw [show (if (t = "icons" && de = "unity" && !uninstalling) = true
              then g else n) = n from if_neg hc]
            exact ih _
        · have hsel : gsSel desktop uninstalling dv g t td n (de, schema) = none := by
            unfold gsSel
            rw [hf']
            simp only [Bool.not_false, Bool.true_and]
            rw [Bool.eq_false_iff.mpr hdv]
            rfl
          rw [hsel]
          by_cases hc : (t = "icons" && de = "unity" && !uninstalling) = true
          · rw [if_pos hc, henv]
            simp only [Bool.eq_false_iff.mpr hdv, Bool.false_eq_true, if_false]
            exact ih s
          · rw [if_neg hc, henv]
            simp only [Bool.eq_false_iff.mpr hdv, Bool.false_eq_true, if_false]
            exact ih s

theorem xfPart_flatten {dv : DesktopVersions} {env : Env} {t : String}
    {td : ThemeData} {n : String}
    (hch : td.property.isSome → td.channel.isSome) (s : EngineState) :
    Enable.xfPart dv env t td n s =
      .ok (execPairs s (xfPairsOf dv env t td n)) := by
  unfold Enable.xfPart xfPairsOf
  cases hp : td.property with
  | none => rfl
  | some prop =>
      have : td.channel.isSome := hch (by rw [hp]; rfl)
      obtain ⟨ch, hc⟩ := Option.isSome_iff_exists.mp this
      rw [hc]
      by_cases hxf : env.xfconf = true
      · rw [hxf]
        by_cases hdv : (dv.get "xfce").isSome = true
        · simp [hdv, execPairs]
        · simp [Bool.eq_false_iff.mpr hdv, execPairs]
      · simp [Bool.eq_false_iff.mpr hxf, execPairs]

/-- Entry wellformedness of `Enable._data`: every theme with a nonempty
schema dict has a non-`None` gsettings key, and every theme with a
non-`None` xfconf property has a non-`None` channel. -/
def WfTD (td : ThemeData) : Prop :=
  (td.schemas ≠ [] → td.key.isSome) ∧ (td.property.isSome → td.channel.isSome)

theorem exceptOkBind {a b : Type} (x : a) (f : a → Except EngineErr b) :
    (Except.ok x >>= f) = f x := rfl

theorem processTheme_flatten {desktop : String} {uninstalling : Bool}
    {dv : DesktopVersions} {env : Env} {g : String}
    {gtk3NameO : Option (Option String)} {enabled : List String}
    (hsub : gtk3NameO = some (some g)) {e : String × ThemeData}
    (hwf : WfTD e.2) (s : EngineState) :
    Enable.processTheme desktop uninstalling dv env gtk3NameO enabled s e =
      .ok (execPairs s (themePairs desktop uninstalling dv env g enabled e)) := by
  unfold Enable.processTheme themePairs
  by_cases hen : (enabled.contains e.1 || uninstalling) = true
  · rw [if_pos hen, if_pos hen]
    cases hn : e.2.theme_name with
    | none => rfl
    | some n =>
        dsimp only
        by_cases hgs : (e.1 = "gnome-shell" &&
            !(env.gnomeExtensions && env.userThemeExtension)) = true
        · rw [if_pos hgs, if_pos hgs]
          rfl
        · rw [if_neg hgs, if_neg hgs, execPairs_append]
          by_cases henv : env.gsettings = true
          · cases hkey : e.2.key with
            | none =>
                have hs : e.2.schemas = [] := by
                  by_contra hne
                  have := hwf.1 hne
                  rw [hkey] at this
                  exact Bool.false_ne_true this
                have h2 : gsPairsOf desktop uninstalling dv env g e.1 e.2 n = [] := by
                  unfold gsPairsOf
                  rw [henv, hs]
                  rfl
                rw [hs, h2]
                rw [show Enable.gsLoop desktop uninstalling dv env gtk3NameO
                  e.1 e.2 n s [] = Except.ok s from rfl]
                rw [exceptOkBind]
                exact xfPart_flatten hwf.2 s
            | some kk =>
                have h1 := gsLoop_flatten_on desktop uninstalling dv env g kk
                  gtk3NameO e.1 e.2 n hsub hkey henv e.2.schemas s
                have h2 : gsPairsOf desktop uninstalling dv env g e.1 e.2 n =
                    e.2.schemas.filterMap
                      (gsSel desktop uninstalling dv g e.1 e.2 n) := by
                  unfold gsPairsOf
                  rw [henv]
                  rfl
                rw [h1, exceptOkBind, h2]
                exact xfPart_flatten hwf.2 _
          · have h1 := gsLoop_flatten_off desktop uninstalling dv env g
              gtk3NameO e.1 e.2 n hsub
              (Bool.eq_false_iff.mpr henv) e.2.schemas s
            have h2 : gsPairsOf desktop uninstalling dv env g e.1 e.2 n = [] := by
              unfold gsPairsOf
              rw [Bool.eq_false_iff.mpr henv]
              rfl
            rw [h1, exceptOkBind, h2]
            exact xfPart_flatten hwf.2 s
  · rw [if_neg hen, if_neg hen]
    rfl

theorem processThemes_flatten {desktop : String} {uninstalling : Bool}
    {dv : DesktopVersions} {env : Env} {g : String}
    {gtk3NameO : Option (Option String)} {enabled : List String}
    (hsub : gtk3NameO = some (some g)) :
    ∀ (data : List (String × ThemeData)), (∀ e ∈ data, WfTD e.2) →
      ∀ (s : EngineState),
      Enable.processThemes desktop uninstalling dv env gtk3NameO enabled s data =
        .ok (execPairs s (procPairs data desktop uninstalling enabled dv env g)) := by
  intro data
  induction data with
  | nil => intro _ s; rfl
  | cons e rest ih =>
      intro hwf s
      show (do
        let s' ← Enable.processTheme desktop uninstalling dv env gtk3NameO
          enabled s e
        Enable.processThemes desktop uninstalling dv env gtk3NameO enabled
          s' rest) = _
      rw [processTheme_flatten hsub (hwf e (List.mem_cons_self e rest)) s,
        exceptOkBind]
      rw [ih (fun x hx => hwf x (List.mem_cons_of_mem e hx)) _]
      show _ = Except.ok (execPairs s
        (themePairs desktop uninstalling dv env g enabled e ++
          procPairs rest desktop uninstalling enabled dv env g))
      rw [execPairs_append]

/-- The `Enable.data` entries are wellformed. -/
theorem mem_dataBlock {o : Option String} {t : String} {mk : String → ThemeData}
    {e : String × ThemeData} (he : e ∈ dataBlock o t mk) :
    ∃ n, o = some n ∧ e = (t, mk n) := by
  cases o with
  | none => simp [dataBlock] at he
  | some n =>
      simp [dataBlock] at he
      exact ⟨n, rfl, by rw [he]⟩

theorem data_wf (names : String → Option String) :
    ∀ e ∈ Enable.data names, WfTD e.2 := by
  intro e he
  unfold Enable.data at he
  rcases List.mem_append.mp he with he | he
  rotate_left
  · obtain ⟨n, -, rfl⟩ := mem_dataBlock he
    exact ⟨fun h => absurd rfl h, fun _ => rfl⟩
  rcases List.mem_append.mp he with he | he
  rotate_left
  · obtain ⟨n, -, rfl⟩ := mem_dataBlock he
    exact ⟨fun _ => rfl, fun h => by simp at h⟩
  rcases List.mem_append.mp he with he | he
  rotate_left
  · obtain ⟨n, -, rfl⟩ := mem_dataBlock he
    exact ⟨fun _ => rfl, fun h => by simp at h⟩
  rcases List.mem_append.mp he with he | he
  rotate_left
  · obtain ⟨n, -, rfl⟩ := mem_dataBlock he
    exact ⟨fun _ => rfl, fun h => by simp at h⟩
  rcases List.mem_append.mp he with he | he
  rotate_left
  · obtain ⟨n, -, rfl⟩ := mem_dataBlock he
    exact ⟨fun _ => rfl, fun _ => rfl⟩
  rcases List.mem_append.mp he with he | he
  rotate_left
  · obtain ⟨n, -, rfl⟩ := mem_dataBlock he
    exact ⟨fun _ => rfl, fun _ => rfl⟩
  rcases List.mem_append.mp he with he | he
  · obtain ⟨n, -, rfl⟩ := mem_dataBlock he
    exact ⟨fun _ => rfl, fun _ => rfl⟩
  · obtain ⟨n, -, rfl⟩ := mem_dataBlock he
    exact ⟨fun _ => rfl, fun _ => rfl⟩

theorem data_lookup_gtk3 {names : String → Option String} {g : String}
    (hg : names "gtk3" = some g) :
    ((Enable.data names).lookup "gtk3").map ThemeData.theme_name =
      some (some g) := by
  unfold Enable.data dataBlock
  rw [hg]
  rfl

/-- A run of `enable_theme` on an `Enable._data` dict equals the execution
of its flattened pair list. -/
theorem enable_theme_flatten {names : String → Option String} {g : String}
    (hg : names "gtk3" = some g) (desktop : String) (uninstalling : Bool)
    (enabled : List String) (dv : DesktopVersions) (env : Env)
    (s : EngineState) :
    Enable.enable_theme (Enable.data names) desktop uninstalling enabled dv env s =
      .ok (execPairs s
        (procPairs (Enable.data names) desktop uninstalling enabled dv env g)) := by
  unfold Enable.enable_theme
  exact processThemes_flatten (data_lookup_gtk3 hg) (Enable.data names)
    (data_wf names) s

/-! ### Properties of single capture-and-apply steps -/

/-- Two pairs target the same store location. -/
def sameLoc (p q : SettingPair) : Prop := p.isXf = q.isXf ∧ p.loc = q.loc

instance (p q : SettingPair) : Decidable (sameLoc p q) := by
  unfold sameLoc
  infer_instance

/-- The live value a pair's read would see in a state. -/
def readPair (s : EngineState) (p : SettingPair) : String :=
  storeGet (if p.isXf then s.xf else s.gs) p.loc

theorem storeGet_set_self (st : StoreMap) (k : String × String) (v : String) :
    storeGet (storeSet st k v) k = v := by
  simp [storeGet, storeSet, List.lookup]

theorem storeGet_set_ne (st : StoreMap) {k k' : String × String} (v : String)
    (h : k' ≠ k) : storeGet (storeSet st k v) k' = storeGet st k' := by
  simp [storeGet, storeSet, List.lookup, beq_eq_false_iff_ne.mpr h]

/-- After a pair's step, its location holds its name (either it was just
written, or it already held it). -/
theorem pairStep_read_self (s : EngineState) (p : SettingPair) :
    readPair (pairStep s p) p = p.name := by
  unfold pairStep readPair
  cases hxf : p.isXf
  · by_cases hl : storeGet s.gs p.loc ≠ p.name
    · rw [if_pos hl]
      simp [storeGet_set_self]
    · rw [if_neg hl]
      push_neg at hl
      simpa using hl
  · by_cases hl : storeGet s.xf p.loc ≠ p.name
    · rw [if_pos hl]
      simp [storeGet_set_self]
    · rw [if_neg hl]
      push_neg at hl
      simpa using hl

/-- A step at a different location does not change what another pair
reads. -/
theorem pairStep_read_other (s : EngineState) {p q : SettingPair}
    (h : ¬ sameLoc q p) : readPair (pairStep s q) p = readPair s p := by
  unfold pairStep readPair sameLoc at *
  push_neg at h
  cases hq : q.isXf
  · by_cases hl : storeGet s.gs q.loc ≠ q.name
    · rw [if_pos hl]
      cases hp : p.isXf
      · have hne : p.loc ≠ q.loc := by
          intro hc
          exact (h (by rw [hq, hp]) hc.symm).elim
        simp [storeGet_set_ne _ _ hne]
      · simp
    · rw [if_neg hl]
      cases hp : p.isXf <;> simp
  · by_cases hl : storeGet s.xf q.loc ≠ q.name
    · rw [if_pos hl]
      cases hp : p.isXf
      · simp
      · have hne : p.loc ≠ q.loc := by
          intro hc
          exact (h (by rw [hq, hp]) hc.symm).elim
        simp [storeGet_set_ne _ _ hne]
    · rw [if_neg hl]
      cases hp : p.isXf <;> simp

theorem gsLoop_ok_preserve (P : EngineState → Prop)
    (hP : ∀ s p, p.isXf = false → P s → P (pairStep s p))
    {desktop : String} {uninstalling : Bool} {dv : DesktopVersions} {env : Env}
    {gtk3NameO : Option (Option String)} {t : String} {td : ThemeData}
    {n : String} :
    ∀ (l : List (String × String)) (s s' : EngineState),
      Enable.gsLoop desktop uninstalling dv env gtk3NameO t td n s l = .ok s' →
      P s → P s' := by
  intro l
  induction l with
  | nil =>
      intro s s' h hs
      simp only [Enable.gsLoop] at h
      cases h
      exact hs
  | cons hd tl ih =>
      intro s s' h hs
      obtain ⟨de, schema⟩ := hd
      unfold Enable.gsLoop at h
      split at h
      · exact ih _ _ h hs
      · by_cases hc : (t = "icons" && de = "unity" && !uninstalling) = true
        · rw [if_pos hc] at h
          cases gtk3NameO with
          | none => simp at h
          | some nq =>
              dsimp only at h
              by_cases henv : env.gsettings = true
              · rw [if_pos henv] at h
                by_cases hdv : (dv.get de).isSome = true
                · rw [if_pos hdv] at h
                  cases hk : td.key with
                  | none =>
                      rw [hk] at h
                      cases nq <;> simp at h
                  | some k =>
                      rw [hk] at h
                      cases nq with
                      | none => simp at h
                      | some name => exact ih _ _ h (hP _ _ rfl hs)
                · rw [if_neg hdv] at h
                  exact ih _ _ h hs
              · rw [if_neg henv] at h
                cases h
                exact hs
        · rw [if_neg hc] at h
          dsimp only at h
          by_cases henv : env.gsettings = true
          · rw [if_pos henv] at h
            by_cases hdv : (dv.get de).isSome = true
            · rw [if_pos hdv] at h
              cases hk : td.key with
              | none =>
                  rw [hk] at h
                  simp at h
              | some k =>
                  rw [hk] at h
                  exact ih _ _ h (hP _ _ rfl hs)
            · rw [if_neg hdv] at h
              exact ih _ _ h hs
          · rw [if_neg henv] at h
            cases h
            exact hs

theorem xfPart_ok_preserve (P : EngineState → Prop)
    (hP : ∀ s p, P s → P (pairStep s p))
    {dv : DesktopVersions} {env : Env} {t : String} {td : ThemeData}
    {n : String} {s s' : EngineState}
    (h : Enable.xfPart dv env t td n s = .ok s') (hs : P s) : P s' := by
  unfold Enable.xfPart at h
  cases hp : td.property with
  | none =>
      rw [hp] at h
      cases h
      exact hs
  | some prop =>
      rw [hp] at h
      dsimp only at h
      by_cases hxf : env.xfconf = true
      · rw [if_pos hxf] at h
        by_cases hdv : (dv.get "xfce").isSome = true
        · rw [if_pos hdv] at h
          cases hc : td.channel with
          | none => rw [hc] at h; simp at h
          | some ch =>
              rw [hc] at h
              cases h
              exact hP _ _ hs
        · rw [if_neg hdv] at h
          cases h
          exact hs
      · rw [if_neg hxf] at h
        cases h
        exact hs

theorem exceptErrBind {a b : Type} (e : EngineErr)
    (f : a → Except EngineErr b) :
    ((Except.error e : Except EngineErr a) >>= f) = .error e := rfl

theorem processTheme_ok_preserve (P : EngineState → Prop)
    (hP : ∀ s p, P s → P (pairStep s p))
    {desktop : String} {uninstalling : Bool} {dv : DesktopVersions} {env : Env}
    {gtk3NameO : Option (Option String)} {enabled : List String}
    {e : String × ThemeData} {s s' : EngineState}
    (h : Enable.processTheme desktop uninstalling dv env gtk3NameO enabled s e =
      .ok s') (hs : P s) : P s' := by
  unfold Enable.processTheme at h
  split at h
  · cases hn : e.2.theme_name with
    | none =>
        rw [hn] at h
        cases h
        exact hs
    | some n =>
        rw [hn] at h
        dsimp only at h
        split at h
        · cases h
          exact hs
        · cases hmid : Enable.gsLoop desktop uninstalling dv env gtk3NameO e.1
            e.2 n s e.2.schemas with
          | error ex =>
              rw [hmid, exceptErrBind] at h
              exact Except.noConfusion h
          | ok smid =>
              rw [hmid, exceptOkBind] at h
              exact xfPart_ok_preserve P hP h
                (gsLoop_ok_preserve P (fun s p _ hs => hP s p hs) _ _ _ hmid hs)
  · cases h
    exact hs

theorem processThemes_ok_preserve (P : EngineState → Prop)
    (hP : ∀ s p, P s → P (pairStep s p))
    {desktop : String} {uninstalling : Bool} {dv : DesktopVersions} {env : Env}
    {gtk3NameO : Option (Option String)} {enabled : List String} :
    ∀ (data : List (String × ThemeData)) (s s' : EngineState),
      Enable.processThemes desktop uninstalling dv env gtk3NameO enabled s data =
        .ok s' → P s → P s' := by
  intro data
  induction data with
  | nil =>
      intro s s' h hs
      simp only [Enable.processThemes] at h
      cases h
      exact hs
  | cons e rest ih =>
      intro s s' h hs
      rw [show Enable.processThemes desktop uninstalling dv env gtk3NameO enabled
        s (e :: rest) = (do
          let smid ← Enable.processTheme desktop uninstalling dv env gtk3NameO
            enabled s e
          Enable.processThemes desktop uninstalling dv env gtk3NameO enabled
            smid rest) from rfl] at h
      cases hmid : Enable.processTheme desktop uninstalling dv env gtk3NameO
          enabled s e with
      | error ex =>
          rw [hmid, exceptErrBind] at h
          exact Except.noConfusion h
      | ok smid =>
          rw [hmid, exceptOkBind] at h
          exact ih _ _ h (processTheme_ok_preserve P hP hmid hs)

/-- Every state change of an `enable_theme` run goes through `pairStep`:
a property preserved by single capture-and-apply steps is preserved by a
whole run. -/
theorem enable_theme_ok_preserve (P : EngineState → Prop)
    (hP : ∀ s p, P s → P (pairStep s p))
    {data : List (String × ThemeData)} {desktop : String}
    {uninstalling : Bool} {enabled : List String} {dv : DesktopVersions}
    {env : Env} {s s' : EngineState}
    (h : Enable.enable_theme data desktop uninstalling enabled dv env s = .ok s')
    (hs : P s) : P s' := by
  unfold Enable.enable_theme at h
  exact processThemes_ok_preserve P hP data s s' h hs

/-- ... and hence by any sequence of runs. -/
theorem runMany_ok_preserve (P : EngineState → Prop)
    (hP : ∀ s p, P s → P (pairStep s p)) :
    ∀ (runs : List EnableArgs) (s s' : EngineState),
      Enable.runMany s runs = .ok s' → P s → P s' := by
  intro runs
  induction runs with
  | nil =>
      intro s s' h hs
      simp only [Enable.runMany] at h
      cases h
      exact hs
  | cons a rest ih =>
      intro s s' h hs
      rw [show Enable.runMany s (a :: rest) = (do
        let smid ← Enable.enable_theme a.data a.desktop a.uninstalling a.enabled
          a.dv a.env s
        Enable.runMany smid rest) from rfl] at h
      cases hmid : Enable.enable_theme a.data a.desktop a.uninstalling a.enabled
          a.dv a.env s with
      | error ex =>
          rw [hmid, exceptErrBind] at h
          exact Except.noConfusion h
      | ok smid =>
          rw [hmid, exceptOkBind] at h
          exact ih _ _ h (enable_theme_ok_preserve P hP hmid hs)

/-! ### Association list lemmas for the snapshot map -/

theorem lookup_append_left {α : Type} {l₁ l₂ : List (String × α)} {k : String}
    {v : α} (h : l₁.lookup k = some v) : (l₁ ++ l₂).lookup k = some v := by
  induction l₁ with
  | nil => simp [List.lookup] at h
  | cons e es ih =>
      rw [List.cons_append]
      rw [List.lookup] at h ⊢
      cases hk : (k == e.1) with
      | true => rw [hk] at h; simpa using h
      | false => rw [hk] at h; exact ih h

theorem lookup_append_right {α : Type} {l₁ l₂ : List (String × α)} {k : String}
    (h : l₁.lookup k = none) : (l₁ ++ l₂).lookup k = l₂.lookup k := by
  induction l₁ with
  | nil => simp
  | cons e es ih =>
      rw [List.cons_append]
      rw [List.lookup] at h ⊢
      cases hk : (k == e.1) with
      | true => rw [hk] at h; simp at h
      | false => rw [hk] at h; exact ih h

theorem lookup_update_inner (m : List (String × String)) (de live de₂ : String) :
    (m.map (fun p => if p.1 = de then (p.1, live) else p)).lookup de₂ =
      if de₂ = de then (m.lookup de₂).map (fun _ => live) else m.lookup de₂ := by
  induction m with
  | nil => by_cases h : de₂ = de <;> simp [List.lookup, h]
  | cons p ps ih =>
      have hfst : (if p.1 = de then (p.1, live) else p).1 = p.1 := by
        by_cases h : p.1 = de <;> simp [h]
      rw [List.map_cons]
      rw [List.lookup, List.lookup, hfst]
      by_cases hk : de₂ = p.1
      · subst hk
        by_cases hpd : p.1 = de <;> simp [hpd, List.lookup]
      · rw [beq_eq_false_iff_ne.mpr hk]
        exact ih

theorem lookup_oldUpdate (o : List (String × List (String × String)))
    (t de live t₂ : String) :
    (oldUpdate o t de live).lookup t₂ =
      if t₂ = t then
        (o.lookup t₂).map (fun m =>
          m.map (fun p => if p.1 = de then (p.1, live) else p))
      else o.lookup t₂ := by
  induction o with
  | nil => by_cases h : t₂ = t <;> simp [oldUpdate, List.lookup, h]
  | cons e es ih =>
      have hfst : (if e.1 = t then
          (e.1, e.2.map (fun p => if p.1 = de then (p.1, live) else p))
          else e).1 = e.1 := by
        by_cases h : e.1 = t <;> simp [h]
      rw [show oldUpdate (e :: es) t de live =
        (if e.1 = t then
          (e.1, e.2.map (fun p => if p.1 = de then (p.1, live) else p))
          else e) :: oldUpdate es t de live from rfl]
      rw [List.lookup, List.lookup, hfst]
      by_cases hk : t₂ = e.1
      · subst hk
        by_cases het : e.1 = t <;> simp [het, List.lookup]
      · rw [beq_eq_false_iff_ne.mpr hk]
        exact ih

/-- A genuine (non-self-authored) snapshot survives any single capture. -/
theorem captureOld_genuine {o : List (String × List (String × String))}
    {t de v : String} (t' de' live : String)
    (hv : lookupOld2 o t de = some v)
    (hq : pyStartsWith v "qualia" = false) :
    lookupOld2 (captureOld o t' de' live) t de = some v := by
  obtain ⟨m, hm, hmd⟩ : ∃ m, o.lookup t = some m ∧ m.lookup de = some v := by
    unfold lookupOld2 at hv
    cases hl : o.lookup t with
    | none => rw [hl] at hv; simp at hv
    | some m => rw [hl] at hv; exact ⟨m, rfl, hv⟩
  unfold captureOld
  cases h1 : o.lookup t' with
  | none =>
      dsimp only
      unfold lookupOld2
      rw [lookup_append_left hm]
      exact hmd
  | some m' =>
      dsimp only
      cases h2 : m'.lookup de' with
      | none =>
          dsimp only
          unfold lookupOld2
          rw [hm]
          exact hmd
      | some w =>
          dsimp only
          by_cases hw : pyStartsWith w "qualia" = true
          · rw [if_pos hw]
            unfold lookupOld2
            rw [lookup_oldUpdate]
            by_cases ht : t = t'
            · rw [if_pos ht]
              subst ht
              rw [hm]
              have hmm : m = m' := by rw [hm] at h1; exact (Option.some.inj h1)
              subst hmm
              simp only [Option.map_some']
              show (m.map fun p =>
                if p.1 = de' then (p.1, live) else p).lookup de = some v
              rw [lookup_update_inner]
              by_cases hde : de = de'
              · subst hde
                rw [hmd] at h2
                have hvw : v = w := Option.some.inj h2
                subst hvw
                rw [hw] at hq
                exact absurd hq (by simp)
              · rw [if_neg hde]
                exact hmd
            · rw [if_neg ht, hm]
              exact hmd
          · rw [if_neg hw]
            unfold lookupOld2
            rw [hm]
            exact hmd

/-- `pairStep` updates the snapshot map exactly through `captureOld` with
the live value it read. -/
theorem pairStep_old (s : EngineState) (p : SettingPair) :
    (pairStep s p).old = captureOld s.old p.theme p.de (readPair s p) := by
  cases hx : p.isXf <;>
    simp only [pairStep, readPair, hx, Bool.false_eq_true, if_false, if_true] <;>
    split <;> rfl

theorem pairStep_updated (s : EngineState) (p : SettingPair) :
    (pairStep s p).updated = s.updated := by
  cases hx : p.isXf <;>
    simp only [pairStep, hx, Bool.false_eq_true, if_false, if_true] <;>
    split <;> rfl

/-! ### Idempotence machinery -/

/-- No two processed pairs target the same store location with different
desired names. -/
def Coherent (l : List SettingPair) : Prop :=
  ∀ p ∈ l, ∀ q ∈ l, sameLoc p q → p.name = q.name

theorem Coherent.tail {p : SettingPair} {l : List SettingPair}
    (h : Coherent (p :: l)) : Coherent l :=
  fun a ha b hb hab =>
    h a (List.mem_cons_of_mem p ha) b (List.mem_cons_of_mem p hb) hab

theorem pairStep_read_same (s : EngineState) {p q : SettingPair}
    (h : sameLoc q p) : readPair (pairStep s q) p = q.name := by
  have heq : readPair (pairStep s q) p = readPair (pairStep s q) q := by
    unfold readPair
    rw [← h.1, ← h.2]
  rw [heq]
  exact pairStep_read_self s q

theorem readPair_congr {s₁ s₂ : EngineState} (hgs : s₁.gs = s₂.gs)
    (hxf : s₁.xf = s₂.xf) (p : SettingPair) :
    readPair s₁ p = readPair s₂ p := by
  unfold readPair
  rw [hgs, hxf]

theorem exec_preserve_read_eq {nm : String} :
    ∀ (l : List SettingPair) (s : EngineState) (p : SettingPair),
      (∀ r ∈ l, sameLoc r p → r.name = nm) → readPair s p = nm →
      readPair (execPairs s l) p = nm := by
  intro l
  induction l with
  | nil => intro s p _ h; exact h
  | cons r rest ih =>
      intro s p hr h
      show readPair (execPairs (pairStep s r) rest) p = nm
      apply ih _ p (fun x hx => hr x (List.mem_cons_of_mem r hx))
      by_cases hs : sameLoc r p
      · rw [pairStep_read_same s hs]
        exact hr r (List.mem_cons_self r rest) hs
      · rw [pairStep_read_other s hs]
        exact h

/-- After a coherent run, every processed location holds its pair's
desired name. -/
theorem exec_reads_coherent :
    ∀ (l : List SettingPair) (s : EngineState), Coherent l →
      ∀ p ∈ l, readPair (execPairs s l) p = p.name := by
  intro l
  induction l with
  | nil => intro s _ p hp; exact absurd hp (List.not_mem_nil p)
  | cons r rest ih =>
      intro s hcoh p hp
      rcases List.mem_cons.mp hp with rfl | hp
      · show readPair (execPairs (pairStep s p) rest) p = p.name
        apply exec_preserve_read_eq rest _ p
        · intro x hx hxp
          exact hcoh x (List.mem_cons_of_mem p hx) p (List.mem_cons_self p rest)
            hxp
        · exact pairStep_read_self s p
      · exact ih (pairStep s r) hcoh.tail p hp

/-- A pair whose location already holds its name performs no write and
leaves the stores untouched. -/
theorem pairStep_noop {s : EngineState} {p : SettingPair}
    (h : readPair s p = p.name) :
    (pairStep s p).gs = s.gs ∧ (pairStep s p).xf = s.xf ∧
    (pairStep s p).gsWrites = s.gsWrites ∧
    (pairStep s p).xfWrites = s.xfWrites := by
  unfold readPair at h
  cases hx : p.isXf <;>
    simp only [pairStep, hx, Bool.false_eq_true, if_false, if_true] <;>
    rw [hx] at h
  · simp only [Bool.false_eq_true, if_false] at h
    rw [if_neg (by simpa using h)]
    exact ⟨rfl, rfl, rfl, rfl⟩
  · simp only [if_true] at h
    rw [if_neg (by simpa using h)]
    exact ⟨rfl, rfl, rfl, rfl⟩

/-- A run whose every read already returns the desired name performs zero
store writes and leaves both stores unchanged. -/
theorem exec_no_writes :
    ∀ (l : List SettingPair) (s : EngineState),
      (∀ p ∈ l, readPair s p = p.name) →
      (execPairs s l).gs = s.gs ∧ (execPairs s l).xf = s.xf ∧
      (execPairs s l).gsWrites = s.gsWrites ∧
      (execPairs s l).xfWrites = s.xfWrites := by
  intro l
  induction l with
  | nil => intro s _; exact ⟨rfl, rfl, rfl, rfl⟩
  | cons p rest ih =>
      intro s h
      obtain ⟨h1, h2, h3, h4⟩ := pairStep_noop (h p (List.mem_cons_self p rest))
      have hrest : ∀ r ∈ rest, readPair (pairStep s p) r = r.name := by
        intro r hr
        rw [readPair_congr h1 h2 r]
        exact h r (List.mem_cons_of_mem p hr)
      obtain ⟨g1, g2, g3, g4⟩ := ih (pairStep s p) hrest
      exact ⟨by rw [show execPairs s (p :: rest) =
          execPairs (pairStep s p) rest from rfl, g1, h1],
        by rw [show execPairs s (p :: rest) =
          execPairs (pairStep s p) rest from rfl, g2, h2],
        by rw [show execPairs s (p :: rest) =
          execPairs (pairStep s p) rest from rfl, g3, h3],
        by rw [show execPairs s (p :: rest) =
          execPairs (pairStep s p) rest from rfl, g4, h4]⟩

theorem exec_preserve_qualia :
    ∀ (l : List SettingPair) (s : EngineState) (p : SettingPair),
      (∀ r ∈ l, pyStartsWith r.name "qualia" = true) →
      pyStartsWith (readPair s p) "qualia" = true →
      pyStartsWith (readPair (execPairs s l) p) "qualia" = true := by
  intro l
  induction l with
  | nil => intro s p _ h; exact h
  | cons r rest ih =>
      intro s p hq h
      show pyStartsWith (readPair (execPairs (pairStep s r) rest) p) "qualia" = true
      apply ih _ p (fun x hx => hq x (List.mem_cons_of_mem r hx))
      by_cases hs : sameLoc r p
      · rw [pairStep_read_same s hs]
        exact hq r (List.mem_cons_self r rest)
      · rw [pairStep_read_other s hs]
        exact h

/-- After a run whose desired names are all self-authored, every processed
location reads a self-authored value. -/
theorem exec_reads_qualia :
    ∀ (l : List SettingPair) (s : EngineState),
      (∀ r ∈ l, pyStartsWith r.name "qualia" = true) →
      ∀ p ∈ l, pyStartsWith (readPair (execPairs s l) p) "qualia" = true := by
  intro l
  induction l with
  | nil => intro s _ p hp; exact absurd hp (List.not_mem_nil p)
  | cons r rest ih =>
      intro s hq p hp
      rcases List.mem_cons.mp hp with rfl | hp
      · show pyStartsWith
          (readPair (execPairs (pairStep s p) rest) p) "qualia" = true
        apply exec_preserve_qualia rest _ p
          (fun x hx => hq x (List.mem_cons_of_mem p hx))
        rw [pairStep_read_self s p]
        exact hq p (List.mem_cons_self p rest)
      · exact ih (pairStep s r) (fun x hx => hq x (List.mem_cons_of_mem r hx))
          p hp

/-! ### Snapshot-map wellformedness and serialization stability -/

theorem captureOld_mem_self (o : List (String × List (String × String)))
    (t de live : String) : ((captureOld o t de live).lookup t).isSome := by
  unfold captureOld
  cases h : o.lookup t with
  | none =>
      dsimp only
      rw [lookup_append_right h]
      simp [List.lookup]
  | some m =>
      dsimp only
      cases h2 : m.lookup de with
      | none => rw [h]; rfl
      | some w =>
          dsimp only
          by_cases hw : pyStartsWith w "qualia" = true
          · rw [if_pos hw, lookup_oldUpdate]
            by_cases ht : t = t
            · rw [if_pos ht, h]; rfl
            · exact absurd rfl ht
          · rw [if_neg hw, h]; rfl

theorem captureOld_mem_mono (o : List (String × List (String × String)))
    (t' de' live : String) {t : String} (h : (o.lookup t).isSome) :
    ((captureOld o t' de' live).lookup t).isSome := by
  obtain ⟨m, hm⟩ := Option.isSome_iff_exists.mp h
  unfold captureOld
  cases h1 : o.lookup t' with
  | none =>
      dsimp only
      rw [lookup_append_left hm]
      rfl
  | some m' =>
      dsimp only
      cases h2 : m'.lookup de' with
      | none => rw [hm]; rfl
      | some w =>
          dsimp only
          by_cases hw : pyStartsWith w "qualia" = true
          · rw [if_pos hw, lookup_oldUpdate]
            by_cases ht : t = t'
            · rw [if_pos ht, hm]; rfl
            · rw [if_neg ht, hm]; rfl
          · rw [if_neg hw, hm]; rfl

theorem exec_old_mono :
    ∀ (l : List SettingPair) (s : EngineState) {t : String},
      ((s.old).lookup t).isSome → (((execPairs s l).old).lookup t).isSome := by
  intro l
  induction l with
  | nil => intro s t h; exact h
  | cons p rest ih =>
      intro s t h
      show (((execPairs (pairStep s p) rest).old).lookup t).isSome
      apply ih
      rw [pairStep_old]
      exact captureOld_mem_mono _ _ _ _ h

/-- After a run, every processed pair's theme has a snapshot entry. -/
theorem exec_old_mem :
    ∀ (l : List SettingPair) (s : EngineState),
      ∀ p ∈ l, (((execPairs s l).old).lookup p.theme).isSome := by
  intro l
  induction l with
  | nil => intro s p hp; exact absurd hp (List.not_mem_nil p)
  | cons r rest ih =>
      intro s p hp
      rcases List.mem_cons.mp hp with rfl | hp
      · show (((execPairs (pairStep s p) rest).old).lookup p.theme).isSome
        apply exec_old_mono
        rw [pairStep_old]
        exact captureOld_mem_self _ _ _ _
      · exact ih (pairStep s r) p hp

/-- The snapshot map represents a Python dict of dicts: no duplicate keys
at either level (an invariant of the representation, automatic in
Python). -/
def OldWf (o : List (String × List (String × String))) : Prop :=
  (o.map Prod.fst).Nodup ∧ ∀ e ∈ o, (e.2.map Prod.fst).Nodup

theorem lookup_none_not_mem {α : Type} {o : List (String × α)} {t : String}
    (h : o.lookup t = none) : t ∉ o.map Prod.fst := by
  induction o with
  | nil => simp
  | cons e es ih =>
      rw [List.lookup] at h
      cases hk : (t == e.1) with
      | true => rw [hk] at h; simp at h
      | false =>
          rw [hk] at h
          rw [List.map_cons, List.mem_cons]
          rintro (h1 | h1)
          · rw [h1] at hk
            simp at hk
          · exact ih h h1

theorem oldUpdate_map_fst (o : List (String × List (String × String)))
    (t de live : String) :
    (oldUpdate o t de live).map Prod.fst = o.map Prod.fst := by
  unfold oldUpdate
  rw [List.map_map]
  apply List.map_congr_left
  intro e _
  by_cases h : e.1 = t <;> simp [h]

theorem captureOld_wf {o : List (String × List (String × String))}
    (t de live : String) (h : OldWf o) : OldWf (captureOld o t de live) := by
  unfold captureOld
  cases h1 : o.lookup t with
  | none =>
      dsimp only
      constructor
      · rw [List.map_append]
        apply List.Nodup.append h.1 (by simp)
        simp only [List.map_cons, List.map_nil, List.disjoint_singleton]
        exact lookup_none_not_mem h1
      · intro e he
        rcases List.mem_append.mp he with he | he
        · exact h.2 e he
        · simp only [List.mem_singleton] at he
          rw [he]
          simp
  | some m =>
      dsimp only
      cases h2 : m.lookup de with
      | none => exact h
      | some w =>
          dsimp only
          by_cases hw : pyStartsWith w "qualia" = true
          · rw [if_pos hw]
            constructor
            · rw [oldUpdate_map_fst]
              exact h.1
            · intro e he
              unfold oldUpdate at he
              obtain ⟨e₀, he₀, rfl⟩ := List.mem_map.mp he
              by_cases h0 : e₀.1 = t
              · rw [if_pos h0]
                simp only [List.map_map]
                have : ((e₀.2.map fun p =>
                    if p.1 = de then (p.1, live) else p).map Prod.fst) =
                    e₀.2.map Prod.fst := by
                  rw [List.map_map]
                  apply List.map_congr_left
                  intro q _
                  by_cases hq : q.1 = de <;> simp [hq]
                rw [show (Prod.fst ∘ fun p =>
                    if p.1 = de then (p.1, live) else p) = Prod.fst from ?_]
                · exact h.2 e₀ he₀
                · funext q
                  by_cases hq : q.1 = de <;> simp [hq]
              · rw [if_neg h0]
                exact h.2 e₀ he₀
          · rw [if_neg hw]
            exact h

theorem oldEntryLines_update {m : List (String × String)} {de w : String}
    (t live : String) (hnd : (m.map Prod.fst).Nodup)
    (hold : m.lookup de = some w)
    (hqw : pyStartsWith w "qualia" = true)
    (hql : pyStartsWith live "qualia" = true) :
    oldEntryLines t (m.map (fun p => if p.1 = de then (p.1, live) else p)) =
      oldEntryLines t m := by
  induction m with
  | nil => rfl
  | cons p ps ih =>
      rw [List.lookup] at hold
      rw [List.map_cons]
      unfold oldEntryLines
      rw [List.filterMap_cons, List.filterMap_cons]
      by_cases hp : p.1 = de
      · have hbeq : (de == p.1) = true := by simp [hp]
        rw [hbeq] at hold
        have hw : p.2 = w := Option.some.inj hold
        have hrest : ps.map (fun q => if q.1 = de then (q.1, live) else q) = ps := by
          apply List.map_congr_left ?_ |>.trans (List.map_id ps)
          intro q hq
          have : q.1 ≠ de := by
            intro hc
            rw [List.map_cons] at hnd
            have := (List.nodup_cons.mp hnd).1
            exact this (by
              rw [hp, ← hc]
              exact List.mem_map_of_mem Prod.fst hq)
          simp [this]
        rw [if_pos hp, hrest]
        have h1 : (if live ≠ "" && !pyStartsWith live "qualia"
            then some ("old_" ++ t ++ "_" ++ p.1 ++ ": " ++ live) else none) =
            none := by
          rw [if_neg]
          simp [hql]
        have h2 : (if p.2 ≠ "" && !pyStartsWith p.2 "qualia"
            then some ("old_" ++ t ++ "_" ++ p.1 ++ ": " ++ p.2) else none) =
            none := by
          rw [if_neg]
          rw [hw]
          simp [hqw]
        simp only at h1 h2 ⊢
        rw [h1, h2]
      · have hbeq : (de == p.1) = false := by
          simp only [beq_eq_false_iff_ne, ne_eq]
          intro hc
          exact hp hc.symm
        rw [hbeq] at hold
        rw [if_neg hp]
        have hnd' : (ps.map Prod.fst).Nodup := by
          rw [List.map_cons] at hnd
          exact (List.nodup_cons.mp hnd).2
        have := ih hnd' hold
        unfold oldEntryLines at this
        rw [this]

theorem oldLines_oldUpdate {o : List (String × List (String × String))}
    {t de live w : String} {m : List (String × String)}
    (hwf : OldWf o) (hm : o.lookup t = some m) (hold : m.lookup de = some w)
    (hqw : pyStartsWith w "qualia" = true)
    (hql : pyStartsWith live "qualia" = true) :
    oldLines (oldUpdate o t de live) = oldLines o := by
  induction o with
  | nil => rfl
  | cons e es ih =>
      rw [List.lookup] at hm
      rw [show oldUpdate (e :: es) t de live =
        (if e.1 = t then
          (e.1, e.2.map (fun p => if p.1 = de then (p.1, live) else p))
          else e) :: oldUpdate es t de live from rfl]
      unfold oldLines
      rw [List.foldr_cons, List.foldr_cons]
      by_cases he : e.1 = t
      · have hbeq : (t == e.1) = true := by simp [he]
        rw [hbeq] at hm
        have hme : e.2 = m := Option.some.inj hm
        have hrest : oldUpdate es t de live = es := by
          unfold oldUpdate
          apply List.map_congr_left ?_ |>.trans (List.map_id es)
          intro q hq
          have : q.1 ≠ t := by
            intro hc
            have h1 := hwf.1
            rw [List.map_cons] at h1
            exact (List.nodup_cons.mp h1).1 (by
              rw [he, ← hc]
              exact List.mem_map_of_mem Prod.fst hq)
          simp [this]
        rw [if_pos he, hrest]
        have h2 : (e.1, e.2.map fun p =>
            if p.1 = de then (p.1, live) else p).2 = e.2.map fun p =>
            if p.1 = de then (p.1, live) else p := rfl
        have hinner : oldEntryLines e.1
            (e.2.map fun p => if p.1 = de then (p.1, live) else p) =
            oldEntryLines e.1 e.2 := by
          apply oldEntryLines_update e.1 live
            (hwf.2 e (List.mem_cons_self e es))
            (by rw [hme]; exact hold) hqw hql
        show oldEntryLines e.1 (e.2.map fun p =>
            if p.1 = de then (p.1, live) else p) ++ _ =
          oldEntryLines e.1 e.2 ++ _
        rw [hinner]
      · have hbeq : (t == e.1) = false := by
          simp only [beq_eq_false_iff_ne, ne_eq]
          intro hc
          exact he hc.symm
        rw [hbeq] at hm
        rw [if_neg he]
        have hwf' : OldWf es := by
          constructor
          · have h1 := hwf.1
            rw [List.map_cons] at h1
            exact (List.nodup_cons.mp h1).2
          · intro x hx
            exact hwf.2 x (List.mem_cons_of_mem e hx)
        have := ih hwf' hm
        unfold oldLines at this
        show oldEntryLines e.1 e.2 ++ _ = oldEntryLines e.1 e.2 ++ _
        rw [this]

/-- A capture whose live value is self-authored, at a theme that already
has a snapshot entry, never changes the serialized snapshot section. -/
theorem oldLines_captureOld {o : List (String × List (String × String))}
    {t : String} (de live : String)
    (hql : pyStartsWith live "qualia" = true)
    (hmem : (o.lookup t).isSome) (hwf : OldWf o) :
    oldLines (captureOld o t de live) = oldLines o := by
  obtain ⟨m, hm⟩ := Option.isSome_iff_exists.mp hmem
  unfold captureOld
  rw [hm]
  dsimp only
  cases h2 : m.lookup de with
  | none => rfl
  | some w =>
      dsimp only
      by_cases hw : pyStartsWith w "qualia" = true
      · rw [if_pos hw]
        exact oldLines_oldUpdate hwf hm h2 hw hql
      · rw [if_neg hw]

/-- Run-two stability: if every processed name and every live read is
self-authored, and every processed theme already has a snapshot entry,
the serialized snapshot section does not change. -/
theorem exec_oldLines_stable :
    ∀ (l : List SettingPair) (s : EngineState),
      (∀ p ∈ l, pyStartsWith p.name "qualia" = true) →
      (∀ p ∈ l, pyStartsWith (readPair s p) "qualia" = true) →
      (∀ p ∈ l, ((s.old).lookup p.theme).isSome) →
      OldWf s.old →
      oldLines (execPairs s l).old = oldLines s.old := by
  intro l
  induction l with
  | nil => intro s _ _ _ _; rfl
  | cons p rest ih =>
      intro s hql hreads hmem hwf
      have hstep : oldLines (pairStep s p).old = oldLines s.old := by
        rw [pairStep_old]
        exact oldLines_captureOld p.de (readPair s p)
          (hreads p (List.mem_cons_self p rest))
          (hmem p (List.mem_cons_self p rest)) hwf
      have hwf' : OldWf (pairStep s p).old := by
        rw [pairStep_old]
        exact captureOld_wf _ _ _ hwf
      have hreads' : ∀ r ∈ rest, pyStartsWith (readPair (pairStep s p) r)
          "qualia" = true := by
        intro r hr
        by_cases hs : sameLoc p r
        · rw [pairStep_read_same s hs]
          exact hql p (List.mem_cons_self p rest)
        · rw [pairStep_read_other s hs]
          exact hreads r (List.mem_cons_of_mem p hr)
      have hmem' : ∀ r ∈ rest,
          (((pairStep s p).old).lookup r.theme).isSome := by
        intro r hr
        rw [pairStep_old]
        exact captureOld_mem_mono _ _ _ _ (hmem r (List.mem_cons_of_mem p hr))
      show oldLines (execPairs (pairStep s p) rest).old = oldLines s.old
      rw [ih (pairStep s p) (fun x hx => hql x (List.mem_cons_of_mem p hx))
        hreads' hmem' hwf', hstep]

/-! ### The xfconf part is independent of the `desktop` argument -/

theorem pairStep_xfproj_gs (s : EngineState) {p : SettingPair}
    (h : p.isXf = false) :
    (pairStep s p).xf = s.xf ∧ (pairStep s p).xfWrites = s.xfWrites := by
  simp only [pairStep, h, Bool.false_eq_true, if_false]
  split <;> exact ⟨rfl, rfl⟩

/-- The desktop loop never touches the xfconf store or its write log. -/
theorem gsLoop_xfproj {desktop : String} {uninstalling : Bool}
    {dv : DesktopVersions} {env : Env} {gtk3NameO : Option (Option String)}
    {t : String} {td : ThemeData} {n : String}
    {l : List (String × String)} {s s' : EngineState}
    (h : Enable.gsLoop desktop uninstalling dv env gtk3NameO t td n s l = .ok s') :
    s'.xf = s.xf ∧ s'.xfWrites = s.xfWrites := by
  exact gsLoop_ok_preserve
    (fun x => x.xf = s.xf ∧ x.xfWrites = s.xfWrites)
    (fun x p hxf hx => by
      obtain ⟨h1, h2⟩ := pairStep_xfproj_gs x hxf
      exact ⟨h1.trans hx.1, h2.trans hx.2⟩)
    l s s' h ⟨rfl, rfl⟩

theorem pairStep_xfproj_congr {s₁ s₂ : EngineState} {p : SettingPair}
    (hT : p.isXf = true) (hx : s₁.xf = s₂.xf) (hw : s₁.xfWrites = s₂.xfWrites) :
    (pairStep s₁ p).xf = (pairStep s₂ p).xf ∧
    (pairStep s₁ p).xfWrites = (pairStep s₂ p).xfWrites := by
  simp only [pairStep, hT, if_true]
  rw [hx, hw]
  split <;> exact ⟨rfl, rfl⟩

theorem xfPart_par {dv : DesktopVersions} {env : Env} {t : String}
    {td : ThemeData} {n : String} {s₁ s₂ s₁' s₂' : EngineState}
    (hx : s₁.xf = s₂.xf) (hw : s₁.xfWrites = s₂.xfWrites)
    (h₁ : Enable.xfPart dv env t td n s₁ = .ok s₁')
    (h₂ : Enable.xfPart dv env t td n s₂ = .ok s₂') :
    s₁'.xf = s₂'.xf ∧ s₁'.xfWrites = s₂'.xfWrites := by
  unfold Enable.xfPart at h₁ h₂
  cases hp : td.property with
  | none =>
      rw [hp] at h₁ h₂
      cases h₁
      cases h₂
      exact ⟨hx, hw⟩
  | some prop =>
      rw [hp] at h₁ h₂
      dsimp only at h₁ h₂
      by_cases hxf : env.xfconf = true
      · rw [if_pos hxf] at h₁ h₂
        by_cases hdv : (dv.get "xfce").isSome = true
        · rw [if_pos hdv] at h₁ h₂
          cases hc : td.channel with
          | none =>
              rw [hc] at h₁
              exact Except.noConfusion h₁
          | some ch =>
              rw [hc] at h₁ h₂
              cases h₁
              cases h₂
              exact pairStep_xfproj_congr rfl hx hw
        · rw [if_neg hdv] at h₁ h₂
          cases h₁
          cases h₂
          exact ⟨hx, hw⟩
      · rw [if_neg hxf] at h₁ h₂
        cases h₁
        cases h₂
        exact ⟨hx, hw⟩

theorem processTheme_xfproj_par {desktop₁ desktop₂ : String}
    {uninstalling : Bool} {dv : DesktopVersions} {env : Env}
    {gtk3NameO : Option (Option String)} {enabled : List String}
    {e : String × ThemeData} {s₁ s₂ s₁' s₂' : EngineState}
    (hx : s₁.xf = s₂.xf) (hw : s₁.xfWrites = s₂.xfWrites)
    (h₁ : Enable.processTheme desktop₁ uninstalling dv env gtk3NameO enabled
      s₁ e = .ok s₁')
    (h₂ : Enable.processTheme desktop₂ uninstalling dv env gtk3NameO enabled
      s₂ e = .ok s₂') :
    s₁'.xf = s₂'.xf ∧ s₁'.xfWrites = s₂'.xfWrites := by
  unfold Enable.processTheme at h₁ h₂
  by_cases hen : (enabled.contains e.1 || uninstalling) = true
  · rw [if_pos hen] at h₁ h₂
    cases hn : e.2.theme_name with
    | none =>
        rw [hn] at h₁ h₂
        cases h₁
        cases h₂
        exact ⟨hx, hw⟩
    | some n =>
        rw [hn] at h₁ h₂
        dsimp only at h₁ h₂
        by_cases hgs : (e.1 = "gnome-shell" &&
            !(env.gnomeExtensions && env.userThemeExtension)) = true
        · rw [if_pos hgs] at h₁ h₂
          cases h₁
          cases h₂
          exact ⟨hx, hw⟩
        · rw [if_neg hgs] at h₁ h₂
          cases hmid₁ : Enable.gsLoop desktop₁ uninstalling dv env gtk3NameO
              e.1 e.2 n s₁ e.2.schemas with
          | error ex =>
              rw [hmid₁, exceptErrBind] at h₁
              exact Except.noConfusion h₁
          | ok m₁ =>
              cases hmid₂ : Enable.gsLoop desktop₂ uninstalling dv env gtk3NameO
                  e.1 e.2 n s₂ e.2.schemas with
              | error ex =>
                  rw [hmid₂, exceptErrBind] at h₂
                  exact Except.noConfusion h₂
              | ok m₂ =>
                  rw [hmid₁, exceptOkBind] at h₁
                  rw [hmid₂, exceptOkBind] at h₂
                  obtain ⟨a1, a2⟩ := gsLoop_xfproj hmid₁
                  obtain ⟨b1, b2⟩ := gsLoop_xfproj hmid₂
                  exact xfPart_par (by rw [a1, b1]; exact hx)
                    (by rw [a2, b2]; exact hw) h₁ h₂
  · rw [if_neg hen] at h₁ h₂
    cases h₁
    cases h₂
    exact ⟨hx, hw⟩

theorem processThemes_xfproj_par {desktop₁ desktop₂ : String}
    {uninstalling : Bool} {dv : DesktopVersions} {env : Env}
    {gtk3NameO : Option (Option String)} {enabled : List String} :
    ∀ (data : List (String × ThemeData)) (s₁ s₂ s₁' s₂' : EngineState),
      s₁.xf = s₂.xf → s₁.xfWrites = s₂.xfWrites →
      Enable.processThemes desktop₁ uninstalling dv env gtk3NameO enabled s₁
        data = .ok s₁' →
      Enable.processThemes desktop₂ uninstalling dv env gtk3NameO enabled s₂
        data = .ok s₂' →
      s₁'.xf = s₂'.xf ∧ s₁'.xfWrites = s₂'.xfWrites := by
  intro data
  induction data with
  | nil =>
      intro s₁ s₂ s₁' s₂' hx hw h₁ h₂
      simp only [Enable.processThemes] at h₁ h₂
      cases h₁
      cases h₂
      exact ⟨hx, hw⟩
  | cons e rest ih =>
      intro s₁ s₂ s₁' s₂' hx hw h₁ h₂
      rw [show Enable.processThemes desktop₁ uninstalling dv env gtk3NameO
        enabled s₁ (e :: rest) = (do
          let m ← Enable.processTheme desktop₁ uninstalling dv env gtk3NameO
            enabled s₁ e
          Enable.processThemes desktop₁ uninstalling dv env gtk3NameO enabled
            m rest) from rfl] at h₁
      rw [show Enable.processThemes desktop₂ uninstalling dv env gtk3NameO
        enabled s₂ (e :: rest) = (do
          let m ← Enable.processTheme desktop₂ uninstalling dv env gtk3NameO
            enabled s₂ e
          Enable.processThemes desktop₂ uninstalling dv env gtk3NameO enabled
            m rest) from rfl] at h₂
      cases hmid₁ : Enable.processTheme desktop₁ uninstalling dv env gtk3NameO
          enabled s₁ e with
      | error ex =>
          rw [hmid₁, exceptErrBind] at h₁
          exact Except.noConfusion h₁
      | ok m₁ =>
          cases hmid₂ : Enable.processTheme desktop₂ uninstalling dv env
              gtk3NameO enabled s₂ e with
          | error ex =>
              rw [hmid₂, exceptErrBind] at h₂
              exact Except.noConfusion h₂
          | ok m₂ =>
              rw [hmid₁, exceptOkBind] at h₁
              rw [hmid₂, exceptOkBind] at h₂
              obtain ⟨c1, c2⟩ := processTheme_xfproj_par hx hw hmid₁ hmid₂
              exact ih m₁ m₂ s₁' s₂' c1 c2 h₁ h₂

/-- The xfconf store and its write log after `enable_theme` do not depend
on the `desktop` argument: the per-desktop filter restricts only the
gsettings loop. -/
theorem enable_theme_xfproj_par {data : List (String × ThemeData)}
    {desktop : String} {uninstalling : Bool} {enabled : List String}
    {dv : DesktopVersions} {env : Env} {s s₁ s₂ : EngineState}
    (h₁ : Enable.enable_theme data desktop uninstalling enabled dv env s =
      .ok s₁)
    (h₂ : Enable.enable_theme data "all" uninstalling enabled dv env s =
      .ok s₂) :
    s₁.xf = s₂.xf ∧ s₁.xfWrites = s₂.xfWrites := by
  unfold Enable.enable_theme at h₁ h₂
  exact processThemes_xfproj_par data s s s₁ s₂ rfl rfl h₁ h₂

theorem exec_old_wf :
    ∀ (l : List SettingPair) (s : EngineState),
      OldWf s.old → OldWf (execPairs s l).old := by
  intro l
  induction l with
  | nil => intro s h; exact h
  | cons p rest ih =>
      intro s h
      show OldWf (execPairs (pairStep s p) rest).old
      apply ih
      rw [pairStep_old]
      exact captureOld_wf _ _ _ h

/-- The write log of the store a pair belongs to. -/
def writesFor (s : EngineState) (b : Bool) :
    List ((String × String) × String) :=
  if b then s.xfWrites else s.gsWrites

instance : Inhabited EngineState :=
  ⟨{ gs := [], xf := [], old := [], gsWrites := [], xfWrites := [],
     updated := false }⟩

/-- Extract the state of a successful run (used only to name concrete
run results in witnesses). -/
def runResult (e : Except EngineErr EngineState) : EngineState :=
  match e with
  | .ok s => s
  | .error _ => default

/-! ## Claim C1 -/

/-- C1 (amended): in `Enable.enable_theme`'s Capture step, the live value
is written into the snapshot map when the *component* has no snapshot
entry at all (then this pair's live value is stored), or when the pair's
stored snapshot begins with the self-authored prefix `qualia` (then it is
refreshed); a pair with no snapshot whose component already has a
snapshot for a different desktop is **not** captured.  Monotonicity holds
as claimed: once a genuine (non-`qualia`-prefixed) snapshot exists for a
pair, no sequence of further `enable_theme` runs overwrites it. -/
theorem C1_snapshot_capture_monotonicity :
    (∀ (s : EngineState) (p : SettingPair),
        (s.old.lookup p.theme) = none →
        lookupOld2 (pairStep s p).old p.theme p.de = some (readPair s p)) ∧
    (∀ (s : EngineState) (p : SettingPair) (v : String),
        lookupOld2 s.old p.theme p.de = some v →
        pyStartsWith v "qualia" = true →
        lookupOld2 (pairStep s p).old p.theme p.de = some (readPair s p)) ∧
    (∀ (runs : List EnableArgs) (s s' : EngineState) (t de v : String),
        Enable.runMany s runs = .ok s' →
        lookupOld2 s.old t de = some v →
        pyStartsWith v "qualia" = false →
        lookupOld2 s'.old t de = some v) := by
  refine ⟨?_, ?_, ?_⟩
  · intro s p h
    rw [pairStep_old]
    unfold captureOld
    rw [h]
    unfold lookupOld2
    rw [lookup_append_right h]
    simp [List.lookup]
  · intro s p v hv hq
    obtain ⟨m, hm, hmd⟩ : ∃ m, s.old.lookup p.theme = some m ∧
        m.lookup p.de = some v := by
      unfold lookupOld2 at hv
      cases hl : s.old.lookup p.theme with
      | none => rw [hl] at hv; simp at hv
      | some m => rw [hl] at hv; exact ⟨m, rfl, hv⟩
    rw [pairStep_old]
    unfold captureOld
    rw [hm]
    dsimp only
    rw [hmd]
    dsimp only
    rw [if_pos hq]
    unfold lookupOld2
    rw [lookup_oldUpdate, if_pos rfl, hm]
    simp only [Option.map_some']
    show (m.map fun q =>
      if q.1 = p.de then (q.1, readPair s p) else q).lookup p.de = _
    rw [lookup_update_inner, if_pos rfl, hmd]
    rfl
  · intro runs s s' t de v hrun hv hq
    exact runMany_ok_preserve
      (fun x => lookupOld2 x.old t de = some v)
      (fun x p hx => by
        show lookupOld2 (pairStep x p).old t de = some v
        rw [pairStep_old]
        exact captureOld_genuine p.theme p.de (readPair x p) hx hq)
      runs s s' hrun hv

/-- Fixtures for the C1 witness: one run over `main`'s data with a genuine
snapshot already present for (gtk3, gnome). -/
def c1Dv : DesktopVersions :=
  { gnome := some 42, cinnamon := none, unity := none, mate := none,
    budgie := none, xfce := none }

def c1Env : Env :=
  { gsettings := true, xfconf := true, gnomeExtensions := true,
    userThemeExtension := true }

def c1Names : String → Option String :=
  mainKwargs "qualia-blue" "qualia-blue-dark" "qualia" "qualia"

def c1State : EngineState :=
  { gs := [], xf := [], old := [("gtk3", [("gnome", "Adwaita")])],
    gsWrites := [], xfWrites := [], updated := false }

def c1Args : EnableArgs :=
  { data := Enable.data c1Names, desktop := "all", uninstalling := false,
    enabled := ["gtk3"], dv := c1Dv, env := c1Env }

def c1Final : EngineState := runResult (Enable.runMany c1State [c1Args])

theorem C1_witness :
    lookupOld2 c1Final.old "gtk3" "gnome" = some "Adwaita" ∧
    lookupOld2 (pairStep default
        { isXf := false, loc := ("s", "k"), theme := "gtk3", de := "gnome",
          name := "qualia" }).old "gtk3" "gnome" = some "" := by
  constructor
  · exact C1_snapshot_capture_monotonicity.2.2 [c1Args] c1State c1Final
      "gtk3" "gnome" "Adwaita" (by decide) (by decide) (by decide)
  · have := C1_snapshot_capture_monotonicity.1 default
      { isXf := false, loc := ("s", "k"), theme := "gtk3", de := "gnome",
        name := "qualia" } (by decide)
    simpa using this

/-- C1 as stated is false: a (component, desktop) pair with a usable store
and *no snapshot for that pair* is not captured when the component already
has a snapshot for a different desktop.  Here (gtk3, xfce) is processed —
the xfconf store is even written — yet no snapshot for (gtk3, xfce) is
stored, because gtk3 already has a gnome snapshot. -/
theorem C1_counterexample :
    Enable.enable_theme (Enable.data c1Names) "all" false ["gtk3"]
      { gnome := none, cinnamon := none, unity := none, mate := none,
        budgie := none, xfce := some 4 } c1Env
      { gs := [], xf := [(("xsettings", "/Net/ThemeName"), "Greybird")],
        old := [("gtk3", [("gnome", "Adwaita")])], gsWrites := [],
        xfWrites := [], updated := false } =
      .ok { gs := [],
            xf := [(("xsettings", "/Net/ThemeName"), "qualia-blue"),
                   (("xsettings", "/Net/ThemeName"), "Greybird")],
            old := [("gtk3", [("gnome", "Adwaita")])], gsWrites := [],
            xfWrites := [(("xsettings", "/Net/ThemeName"), "qualia-blue")],
            updated := false } ∧
    lookupOld2 [("gtk3", [("gnome", "Adwaita")])] "gtk3" "xfce" = none := by
  constructor
  · decide
  · decide

/-! ## Claim C8 -/

/-- C8 (amended): in the Apply step, when the live value differs from the
desired value the desired value is written through the store and the
write is logged; when it is equal, no write occurs and the stores and
write logs are untouched.  But `enable_theme` never sets the module
global `updated`, which alone drives the end-of-run "log out and log back
in" notice — only the `Install*` build actions set it. -/
theorem C8_apply_semantics :
    (∀ (s : EngineState) (p : SettingPair), readPair s p ≠ p.name →
        readPair (pairStep s p) p = p.name ∧
        writesFor (pairStep s p) p.isXf =
          writesFor s p.isXf ++ [(p.loc, p.name)]) ∧
    (∀ (s : EngineState) (p : SettingPair), readPair s p = p.name →
        (pairStep s p).gs = s.gs ∧ (pairStep s p).xf = s.xf ∧
        (pairStep s p).gsWrites = s.gsWrites ∧
        (pairStep s p).xfWrites = s.xfWrites) ∧
    (∀ (data : List (String × ThemeData)) (desktop : String)
        (uninstalling : Bool) (enabled : List String) (dv : DesktopVersions)
        (env : Env) (s s' : EngineState),
        Enable.enable_theme data desktop uninstalling enabled dv env s =
          .ok s' → s'.updated = s.updated) := by
  refine ⟨?_, ?_, ?_⟩
  · intro s p hne
    refine ⟨pairStep_read_self s p, ?_⟩
    unfold readPair at hne
    cases hx : p.isXf <;>
      simp only [pairStep, writesFor, hx, Bool.false_eq_true, if_false,
        if_true] <;>
      rw [hx] at hne
    · simp only [Bool.false_eq_true, if_false] at hne
      rw [if_pos (by simpa using hne)]
    · simp only [if_true] at hne
      rw [if_pos (by simpa using hne)]
  · intro s p h
    exact pairStep_noop h
  · intro data desktop uninstalling enabled dv env s s' h
    exact enable_theme_ok_preserve (fun x => x.updated = s.updated)
      (fun x p hx => by
        show (pairStep x p).updated = s.updated
        rw [pairStep_updated]
        exact hx)
      h rfl

theorem C8_witness :
    readPair (pairStep default
      { isXf := false, loc := ("s", "k"), theme := "gtk3", de := "gnome",
        name := "qualia" })
      { isXf := false, loc := ("s", "k"), theme := "gtk3", de := "gnome",
        name := "qualia" } = "qualia" ∧
    writesFor (pairStep default
      { isXf := false, loc := ("s", "k"), theme := "gtk3", de := "gnome",
        name := "qualia" }) false = [(("s", "k"), "qualia")] := by
  have := C8_apply_semantics.1 default
    { isXf := false, loc := ("s", "k"), theme := "gtk3", de := "gnome",
      name := "qualia" } (by decide)
  exact ⟨this.1, by simpa using this.2⟩

/-- C8 as stated is false: a run in which live values differ performs the
writes, but records no change — the `updated` flag that drives the
end-of-run notice stays `false`. -/
theorem C8_counterexample :
    Enable.enable_theme (Enable.data c1Names) "all" false ["gtk3"] c1Dv c1Env
      { gs := [], xf := [], old := [], gsWrites := [], xfWrites := [],
        updated := false } =
      .ok { gs := [(("org.gnome.desktop.interface", "gtk-theme"),
                    "qualia-blue")],
            xf := [], old := [("gtk3", [("gnome", "")])],
            gsWrites := [(("org.gnome.desktop.interface", "gtk-theme"),
                          "qualia-blue")],
            xfWrites := [], updated := false } ∧
    [(("org.gnome.desktop.interface", "gtk-theme"), "qualia-blue")] ≠
      ([] : List ((String × String) × String)) := by
  constructor
  · decide
  · decide

/-! ## Claim C10 -/

/-- C10: the per-desktop filter of `enable_theme` restricts only the
schema-based (gsettings) loop — the xfconf store contents and the xfconf
write log after a run with any `desktop` argument equal those of a run
with `desktop = "all"`; and whenever a theme has an xfconf property, xfce
is detected, `xfconf-query` exists and the live value differs from the
desired name, the xfconf part reads the store and writes the name —
regardless of the `desktop` argument, which it never sees. -/
theorem C10_xfconf_unfiltered :
    (∀ (data : List (String × ThemeData)) (desktop : String)
        (uninstalling : Bool) (enabled : List String) (dv : DesktopVersions)
        (env : Env) (s s₁ s₂ : EngineState),
        Enable.enable_theme data desktop uninstalling enabled dv env s =
          .ok s₁ →
        Enable.enable_theme data "all" uninstalling enabled dv env s =
          .ok s₂ →
        s₁.xf = s₂.xf ∧ s₁.xfWrites = s₂.xfWrites) ∧
    (∀ (dv : DesktopVersions) (env : Env) (t : String) (td : ThemeData)
        (n prop ch : String) (s : EngineState),
        td.property = some prop → td.channel = some ch →
        env.xfconf = true → (dv.get "xfce").isSome = true →
        storeGet s.xf (ch, prop) ≠ n →
        Enable.xfPart dv env t td n s =
          .ok (pairStep s { isXf := true, loc := (ch, prop), theme := t,
                            de := "xfce", name := n }) ∧
        (pairStep s { isXf := true, loc := (ch, prop), theme := t,
                      de := "xfce", name := n }).xfWrites =
          s.xfWrites ++ [((ch, prop), n)] ∧
        (pairStep s { isXf := true, loc := (ch, prop), theme := t,
                      de := "xfce", name := n }).xf =
          storeSet s.xf (ch, prop) n) := by
  constructor
  · intro data desktop uninstalling enabled dv env s s₁ s₂ h₁ h₂
    exact enable_theme_xfproj_par h₁ h₂
  · intro dv env t td n prop ch s hp hc hxf hdv hne
    refine ⟨?_, ?_, ?_⟩
    · unfold Enable.xfPart
      rw [hp]
      dsimp only
      rw [if_pos hxf, if_pos hdv, hc]
    · simp only [pairStep, if_true]
      rw [if_pos (by simpa using hne)]
    · simp only [pairStep, if_true]
      rw [if_pos (by simpa using hne)]

/-- C10 witness fixtures: `desktop = "gnome"`, xfce detected, live xfwm4
theme differs — the xfconf write still happens and matches the
`desktop = "all"` run. -/
def c10Dv : DesktopVersions :=
  { gnome := some 42, cinnamon := none, unity := none, mate := none,
    budgie := none, xfce := some 4 }

def c10State : EngineState :=
  { gs := [], xf := [(("xfwm4", "/general/theme"), "Default")],
    old := [], gsWrites := [], xfWrites := [], updated := false }

def c10RunGnome : EngineState :=
  runResult (Enable.enable_theme (Enable.data c1Names) "gnome" false
    ["xfwm4"] c10Dv c1Env c10State)

def c10RunAll : EngineState :=
  runResult (Enable.enable_theme (Enable.data c1Names) "all" false
    ["xfwm4"] c10Dv c1Env c10State)

theorem C10_witness :
    (c10RunGnome.xf = c10RunAll.xf ∧
     c10RunGnome.xfWrites = c10RunAll.xfWrites) ∧
    c10RunGnome.xfWrites = [(("xfwm4", "/general/theme"), "qualia")] := by
  constructor
  · exact C10_xfconf_unfiltered.1 (Enable.data c1Names) "gnome" false
      ["xfwm4"] c10Dv c1Env c10State c10RunGnome c10RunAll (by decide)
      (by decide)
  · decide

/-! ## Claim C3 -/

/-- C3 (amended): for an unchanged configuration and a live environment
changed only by the first pass itself, a second `enable_theme` pass
performs zero settings-store writes and leaves both stores unchanged —
**provided** no two processed (component, desktop) pairs target the same
store location with different desired names (the unity icon substitution
violates this when unity and gnome/budgie are detected together, the
icons facet is enabled, and the icon name differs from the gtk3 name);
and, whenever all desired names carry the self-authored `qualia` prefix
(as `main`'s always do), the Persistent Config Record serialized after
the second pass is byte-identical to the one serialized after the first —
with or without that coherence condition, i.e. even in the
unity-substitution case in which the second pass does perform writes. -/
theorem C3_second_pass_idempotent (names : String → Option String)
    (g : String) (hg : names "gtk3" = some g) (enabled : List String)
    (dv : DesktopVersions) (env : Env) (s0 s1 s2 : EngineState) (c : Cfg)
    (hwf : OldWf s0.old)
    (hql : ∀ p ∈ procPairs (Enable.data names) "all" false enabled dv env g,
      pyStartsWith p.name "qualia" = true)
    (h1 : Enable.enable_theme (Enable.data names) "all" false enabled dv env
      s0 = .ok s1)
    (h2 : Enable.enable_theme (Enable.data names) "all" false enabled dv env
      { s1 with gsWrites := [], xfWrites := [] } = .ok s2) :
    (Coherent (procPairs (Enable.data names) "all" false enabled dv env g) →
      s2.gsWrites = [] ∧ s2.xfWrites = [] ∧ s2.gs = s1.gs ∧ s2.xf = s1.xf) ∧
    serializeCfg { c with old := s2.old } =
      serializeCfg { c with old := s1.old } := by
  have hs1 : s1 = execPairs s0
      (procPairs (Enable.data names) "all" false enabled dv env g) :=
    Except.ok.inj
      ((h1.symm).trans (enable_theme_flatten hg "all" false enabled dv env s0))
  have hs2 : s2 = execPairs { s1 with gsWrites := [], xfWrites := [] }
      (procPairs (Enable.data names) "all" false enabled dv env g) :=
    Except.ok.inj ((h2.symm).trans
      (enable_theme_flatten hg "all" false enabled dv env
        { s1 with gsWrites := [], xfWrites := [] }))
  constructor
  · intro hcoh
    have hreads : ∀ p ∈ procPairs (Enable.data names) "all" false enabled dv
        env g, readPair { s1 with gsWrites := [], xfWrites := [] } p =
        p.name := by
      intro p hp
      have hrp : readPair { s1 with gsWrites := [], xfWrites := [] } p =
          readPair s1 p := readPair_congr rfl rfl p
      rw [hrp, hs1]
      exact exec_reads_coherent _ s0 hcoh p hp
    obtain ⟨e1, e2, e3, e4⟩ := exec_no_writes
      (procPairs (Enable.data names) "all" false enabled dv env g)
      { s1 with gsWrites := [], xfWrites := [] } hreads
    exact ⟨by rw [hs2, e3], by rw [hs2, e4], by rw [hs2, e1], by rw [hs2, e2]⟩
  · have hqreads : ∀ p ∈ procPairs (Enable.data names) "all" false enabled dv
        env g, pyStartsWith
          (readPair { s1 with gsWrites := [], xfWrites := [] } p) "qualia" =
          true := by
      intro p hp
      have hrp : readPair { s1 with gsWrites := [], xfWrites := [] } p =
          readPair s1 p := readPair_congr rfl rfl p
      rw [hrp, hs1]
      exact exec_reads_qualia _ s0 hql p hp
    have hmem : ∀ p ∈ procPairs (Enable.data names) "all" false enabled dv
        env g, ((EngineState.old { s1 with gsWrites := [], xfWrites := [] }).lookup
          p.theme).isSome := by
      intro p hp
      show ((s1.old).lookup p.theme).isSome
      rw [hs1]
      exact exec_old_mem _ s0 p hp
    have hwf1 : OldWf (EngineState.old { s1 with gsWrites := [], xfWrites := [] }) := by
      show OldWf s1.old
      rw [hs1]
      exact exec_old_wf _ s0 hwf
    have hol : oldLines s2.old = oldLines s1.old := by
      rw [hs2]
      rw [exec_oldLines_stable
        (procPairs (Enable.data names) "all" false enabled dv env g)
        { s1 with gsWrites := [], xfWrites := [] } hql hqreads hmem hwf1]
    unfold serializeCfg
    dsimp only
    rw [hol]

/-- C3 witness fixtures: one enabled theme, gnome only. -/
def c3wS1 : EngineState :=
  runResult (Enable.enable_theme (Enable.data c1Names) "all" false ["gtk3"]
    c1Dv c1Env default)

def c3wS2 : EngineState :=
  runResult (Enable.enable_theme (Enable.data c1Names) "all" false ["gtk3"]
    c1Dv c1Env { c3wS1 with gsWrites := [], xfWrites := [] })

def c3wCfg : Cfg :=
  { color := "orange", theme := "dark", enabled := ["gtk3"], firefox := [],
    vscode := [], gnomeVersion := some 42, versions := [], old := [] }

theorem C3_witness :
    c3wS2.gsWrites = [] ∧ c3wS2.xfWrites = [] ∧ c3wS2.gs = c3wS1.gs ∧
    c3wS2.xf = c3wS1.xf ∧
    serializeCfg { c3wCfg with old := c3wS2.old } =
      serializeCfg { c3wCfg with old := c3wS1.old } := by
  have h := C3_second_pass_idempotent c1Names "qualia-blue"
    (by decide) ["gtk3"] c1Dv c1Env default c3wS1 c3wS2 c3wCfg
    ⟨by decide, by decide⟩ (by decide) (by decide) (by decide)
  obtain ⟨hz, hb⟩ := h
  obtain ⟨z1, z2, z3, z4⟩ := hz (by unfold Coherent; decide)
  exact ⟨z1, z2, z3, z4, hb⟩


def c3cS1 : EngineState :=
  runResult (Enable.enable_theme (Enable.data c1Names) "all" false ["icons"]
    { gnome := some 42, cinnamon := none, unity := some 7, mate := none,
      budgie := none, xfce := none }
    { gsettings := true, xfconf := false, gnomeExtensions := true,
      userThemeExtension := true } default)

def c3cS2 : EngineState :=
  runResult (Enable.enable_theme (Enable.data c1Names) "all" false ["icons"]
    { gnome := some 42, cinnamon := none, unity := some 7, mate := none,
      budgie := none, xfce := none }
    { gsettings := true, xfconf := false, gnomeExtensions := true,
      userThemeExtension := true } { c3cS1 with gsWrites := [], xfWrites := [] })

/-- C3 as stated is false: with gnome and unity both detected, the icons
facet enabled, and a light variant (icon name ≠ gtk3 name), the unity
icon substitution makes the (icons, gnome) and (icons, unity) pairs write
different names to the same gsettings key, so every pass — including the
second, with nothing changed in between — performs store writes.  The
record serialized after the second pass is nevertheless byte-identical
to the one serialized after the first, as the amended claim states. -/
theorem C3_counterexample :
    Enable.enable_theme (Enable.data c1Names) "all" false ["icons"]
      { gnome := some 42, cinnamon := none, unity := some 7, mate := none,
        budgie := none, xfce := none }
      { gsettings := true, xfconf := false, gnomeExtensions := true,
        userThemeExtension := true } default = .ok c3cS1 ∧
    Enable.enable_theme (Enable.data c1Names) "all" false ["icons"]
      { gnome := some 42, cinnamon := none, unity := some 7, mate := none,
        budgie := none, xfce := none }
      { gsettings := true, xfconf := false, gnomeExtensions := true,
        userThemeExtension := true }
      { c3cS1 with gsWrites := [], xfWrites := [] } = .ok c3cS2 ∧
    c3cS2.gsWrites ≠ [] ∧
    serializeCfg { c3wCfg with old := c3cS2.old } =
      serializeCfg { c3wCfg with old := c3cS1.old } := by
  refine ⟨by decide, by decide, by decide, by decide⟩

/-! ## Claim C4 -/

/-- C4 (amended): a rebuild is triggered iff the version token differs, or
the reconfigure-everything flag (`configure_all`) is set, or `force` is
set, or — only for dg-yaru — the recorded gnome version differs from the
detected one; this holds exactly for dg-adw-gtk3 and dg-yaru, and a gnome
identity change alone rebuilds dg-yaru but not dg-adw-gtk3.  (For the
other groups the claimed "only if" fails: dg-libadwaita, dg-firefox-theme
and dg-vscode-adwaita have additional triggers — see the
counterexample.) -/
theorem C4_staleness_conditions :
    ∀ (cur rec : String) (ca f : Bool) (og gn : Option Int),
      (InstallDgAdwGtk3.rebuild cur rec ca f = true ↔
        (cur ≠ rec ∨ ca = true ∨ f = true)) ∧
      (InstallDgYaru.rebuild cur rec ca f og gn = true ↔
        (cur ≠ rec ∨ ca = true ∨ f = true ∨ og ≠ gn)) ∧
      (og ≠ gn →
        InstallDgAdwGtk3.rebuild cur cur false false = false ∧
        InstallDgYaru.rebuild cur cur false false og gn = true) := by
  intro cur rec ca f og gn
  refine ⟨?_, ?_, ?_⟩
  · unfold InstallDgAdwGtk3.rebuild
    simp
    tauto
  · unfold InstallDgYaru.rebuild
    simp
    tauto
  · intro hog
    constructor
    · unfold InstallDgAdwGtk3.rebuild
      simp
    · unfold InstallDgYaru.rebuild
      simp [hog]

theorem C4_witness :
    InstallDgAdwGtk3.rebuild "x" "x" false false = false ∧
    InstallDgYaru.rebuild "x" "x" false false (some 42) (some 43) = true :=
  (C4_staleness_conditions "x" "x" false false (some 42) (some 43)).2.2
    (by decide)

/-- C4 as stated is false for dg-libadwaita: with an unchanged token and
`configure_all`/`force` both false, the accent re-ask flag alone triggers
a rebuild, which the claimed "if and only if" forbids. -/
theorem C4_counterexample :
    InstallDgLibadwaita.rebuild "a" "a" false false true false = true ∧
    ¬(("a" : String) ≠ "a" ∨ False ∨ False ∨ False) := by
  constructor
  · decide
  · simp

/-! ## Claim C9 -/

/-- C9 (amended): whatever is at the config path, `Config.write` replaces
it with the freshly serialized record (all known fields, fixed section
order); a regular file is removed first, and a *directory* is removed
recursively and silently — `shutil.rmtree` runs and the write completes
without any failure report. -/
theorem C9_write_replaces :
    ∀ (ps : PathState) (c : Cfg),
      (Config.write ps c).state = .file (serializeCfg c) ∧
      ((Config.write ps c).removedDir = true ↔ ps = .dir) := by
  intro ps c
  cases ps <;> simp [Config.write]

def c9Cfg : Cfg :=
  { color := "orange", theme := "dark", enabled := ["gtk3"], firefox := [],
    vscode := [], gnomeVersion := none, versions := [], old := [] }

/-- C9 as stated is false: when the config path is a directory, the write
does not fail loudly — it silently removes the directory and succeeds. -/
theorem C9_counterexample :
    (Config.write .dir c9Cfg).removedDir = true ∧
    (Config.write .dir c9Cfg).state = .file (serializeCfg c9Cfg) ∧
    (Config.write (.file ["junk"]) c9Cfg).removedDir = false := by
  refine ⟨rfl, rfl, rfl⟩

/-! ## Claim C5 -/

/-- C5 (code bug): with a structurally fine record whose variant is
`auto`, when the color-scheme probe fails, `theme_variants` returns
`False` (not `None`), so `main`'s corrupt-record test `color_scheme is
None` never fires: no reconfiguration is forced, and the later
`config['suffix']` computation raises `KeyError: color_scheme`.  The
other invalid shapes (missing keys, empty enabled list) do force
reconfiguration. -/
theorem C5_auto_failure_skips_reconfigure :
    mainNeedsReconfigure (some "blue") (some "auto") (some ["gtk3"]) none =
      false ∧
    (Config.theme_variants "auto" none).1 = false ∧
    mainSuffix (Config.theme_variants "auto" none).2 =
      .error "KeyError: color_scheme" ∧
    mainNeedsReconfigure (some "blue") (some "dark") none none = true ∧
    mainNeedsReconfigure (some "blue") (some "dark") (some []) none = true ∧
    mainNeedsReconfigure none (some "dark") (some ["gtk3"]) none = true := by
  decide

/-! ## Claim C6 -/

def c6Enableable : Enableable := .dict ["gtk3", "icons"]

/-- C6 (code bug): a multi-entry `enabled:` line keeps *every* listed
identifier, eligible or not — the guard computes the boolean
`theme in config['enableable'] or key != 'enabled'` and then tests that
boolean for membership in a list of strings, which always passes.  The
parallel single-entry branch filters correctly, showing the intent. -/
theorem C6_ineligible_in_enabled :
    Config.read false c6Enableable (some ["enabled: gtk3 bogus"]) =
      .ok { ReadConfig.init c6Enableable with
              enabled := some ["gtk3", "bogus"] } ∧
    Enableable.mem c6Enableable "bogus" = false ∧
    Config.read false c6Enableable (some ["enabled: bogus"]) =
      .ok { ReadConfig.init c6Enableable with enabled := some [] } := by
  decide

/-! ## Claim C7 -/

/-- A record with nothing enabled but with a browser installed: its own
serialization crashes `Config.read`. -/
def c7Cfg : Cfg :=
  { color := "orange", theme := "dark", enabled := [],
    firefox := ["standard"], vscode := [], gnomeVersion := some 42,
    versions := [("dg-adw-gtk3_version", "")], old := [] }

/-- C7 (code bug): `Config.read` *does* raise.  The empty `enabled:` line
is skipped (no value), so `config['enabled']` is never created, and the
legacy `firefox` handler then raises `KeyError` — even on a file
`Config.write` itself produced.  A missing file and malformed lines are
indeed harmless. -/
theorem C7_read_raises_on_firefox_line :
    Config.read false c6Enableable (some (serializeCfg c7Cfg)) =
      .error .keyErrorEnabled ∧
    Config.read false c6Enableable (some ["firefox: standard"]) =
      .error .keyErrorEnabled ∧
    Config.read false c6Enableable none = .ok (ReadConfig.init c6Enableable) ∧
    Config.read false c6Enableable (some ["garbage line", "a:b", "x: "]) =
      .ok (ReadConfig.init c6Enableable) := by
  decide

/-! ## Claim C2 -/

def c2Enableable : Enableable :=
  .dict ["gtk3", "gtk4-libadwaita", "gtk4", "gnome-shell", "icons",
         "cursors", "sounds", "firefox", "settings_theme", "vscode",
         "default_syntax", "snap"]

def c2Cfg : Cfg :=
  { color := "orange", theme := "dark", enabled := ["gtk3", "icons"],
    firefox := ["standard"], vscode := [], gnomeVersion := some 42,
    versions :=
      [("dg-adw-gtk3_version", ""), ("dg-libadwaita_version", ""),
       ("dg-yaru_version", ""), ("dg-firefox-theme_version", ""),
       ("dg-vscode-adwaita_version", "")],
    old := [("gtk3", [("gnome", "Adwaita"), ("xfce", "Greybird")])] }

/-- Extract the record of a successful read (used only to name the
concrete read-back in C2). -/
def readResult (e : Except ReadErr ReadConfig) (d : ReadConfig) : ReadConfig :=
  match e with
  | .ok rc => rc
  | .error _ => d

def c2Read : ReadConfig :=
  readResult (Config.read false c2Enableable (some (serializeCfg c2Cfg)))
    (ReadConfig.init c2Enableable)

/-- C2 (code bug): write→read does not reproduce the record.  Reading the
file written for `c2Cfg` (a) appends a spurious `firefox` to the enabled
list, because the legacy `firefox:` handler fires on the current-format
installed-browser line, and (b) keeps only the *last* desktop snapshot of
gtk3, because the `old_*` parser resets the component's snapshot dict on
every line. -/
theorem C2_roundtrip_loses_fields :
    Config.read false c2Enableable (some (serializeCfg c2Cfg)) =
      .ok c2Read ∧
    c2Read.enabled = some ["gtk3", "icons", "firefox"] ∧
    c2Cfg.enabled = ["gtk3", "icons"] ∧
    c2Read.old = [("gtk3", [("xfce", PyStrList.str "Greybird")])] ∧
    c2Cfg.old = [("gtk3", [("gnome", "Adwaita"), ("xfce", "Greybird")])] ∧
    c2Read.color = some "orange" ∧ c2Read.theme = some "dark" := by
  decide
